import Mathlib

/-!
# Frontend gateway start-up and route table (src/frontend/main.go)

A shallow embedding of `main.go`: the package constants, the currency
whitelist, the `frontendServer` registry, `mustMapEnv`, `mustConnGRPC`, the
route table built in `main`, and `main` itself as a state-passing program
that records its effects (field assignments, dials, log line, listen call)
in a trace.

The external libraries are modelled only as far as `main` uses them:
`os.Getenv` is a lookup in an environment, `grpc.DialContext` is an oracle
indexed by the number of earlier dial calls, and the `gorilla/mux` router is
a list of routes with path and method matchers together with its clean-path
redirect and its lookup procedure.
-/

set_option autoImplicit false

namespace Frontend

/-! ## Package constants (main.go, lines 17-30) -/

def port : String := "8080"

def defaultCurrency : String := "USD"

def cookieMaxAge : Nat := 60 * 60 * 48

def cookiePrefixStr : String := "shop_"

def cookieSessionID : String := cookiePrefixStr ++ "session-id"

def cookieCurrency : String := cookiePrefixStr ++ "currency"

/-- The map literal of lines 28-29, as its list of key/value entries. -/
def whitelistedCurrencies : List (String × Bool) :=
  [("USD", true), ("EUR", true), ("CAD", true), ("JPY", true)]

/-- Go map indexing `m[k]` on a `map[string]bool`: the stored value, or the
zero value `false` when the key is absent. -/
def mapIndex (m : List (String × Bool)) (k : String) : Bool :=
  match m.lookup k with
  | some v => v
  | none => false

/-! ## Environment -/

/-- The process environment: `none` is an unset variable. -/
abbrev Env := String → Option String

/-- Go `os.Getenv`: the value of the variable, empty when it is unset. -/
def Getenv (env : Env) (key : String) : String :=
  (env key).getD ""

/-! ## The registry `frontendServer` (main.go, lines 34-52) -/

/-- An opaque connection handle (`*grpc.ClientConn`); `none` is `nil`. -/
abbrev Conn := Nat

structure frontendServer where
  productCatalogSvcAddr : String
  productCatalogSvcConn : Option Conn
  currencySvcAddr : String
  currencySvcConn : Option Conn
  cartSvcAddr : String
  cartSvcConn : Option Conn
  recommendationSvcAddr : String
  recommendationSvcConn : Option Conn
  checkoutSvcAddr : String
  checkoutSvcConn : Option Conn
  shippingSvcAddr : String
  shippingSvcConn : Option Conn
  deriving DecidableEq, Repr

/-- Go `new(frontendServer)`: every field holds its zero value. -/
def frontendServer.new : frontendServer :=
  { productCatalogSvcAddr := "", productCatalogSvcConn := none,
    currencySvcAddr := "", currencySvcConn := none,
    cartSvcAddr := "", cartSvcConn := none,
    recommendationSvcAddr := "", recommendationSvcConn := none,
    checkoutSvcAddr := "", checkoutSvcConn := none,
    shippingSvcAddr := "", shippingSvcConn := none }

/-- A `*string` pointing at one of the address fields of the server. -/
inductive StrPtr
  | productCatalogSvcAddr
  | currencySvcAddr
  | cartSvcAddr
  | recommendationSvcAddr
  | checkoutSvcAddr
  | shippingSvcAddr
  deriving DecidableEq, Repr

/-- A `**grpc.ClientConn` pointing at one of the connection fields. -/
inductive ConnPtr
  | productCatalogSvcConn
  | currencySvcConn
  | cartSvcConn
  | recommendationSvcConn
  | checkoutSvcConn
  | shippingSvcConn
  deriving DecidableEq, Repr

/-- The store `*target = v`. -/
def frontendServer.storeStr (svc : frontendServer) (target : StrPtr) (v : String) :
    frontendServer :=
  match target with
  | .productCatalogSvcAddr => { svc with productCatalogSvcAddr := v }
  | .currencySvcAddr => { svc with currencySvcAddr := v }
  | .cartSvcAddr => { svc with cartSvcAddr := v }
  | .recommendationSvcAddr => { svc with recommendationSvcAddr := v }
  | .checkoutSvcAddr => { svc with checkoutSvcAddr := v }
  | .shippingSvcAddr => { svc with shippingSvcAddr := v }

/-- The store `*conn = c`. -/
def frontendServer.storeConn (svc : frontendServer) (conn : ConnPtr) (c : Option Conn) :
    frontendServer :=
  match conn with
  | .productCatalogSvcConn => { svc with productCatalogSvcConn := c }
  | .currencySvcConn => { svc with currencySvcConn := c }
  | .cartSvcConn => { svc with cartSvcConn := c }
  | .recommendationSvcConn => { svc with recommendationSvcConn := c }
  | .checkoutSvcConn => { svc with checkoutSvcConn := c }
  | .shippingSvcConn => { svc with shippingSvcConn := c }

/-! ## Effects of the start-up program -/

/-- Go `time.Second`, in nanoseconds. -/
def timeSecond : Nat := 1000000000

/-- What `grpc.DialContext` returns: a connection, or an error text. -/
inductive DialResult
  | ok (c : Conn)
  | error (err : String)
  deriving DecidableEq, Repr

/-- The outside world as seen by `grpc.DialContext`: the result of the
`n`-th dial call (counting from 0) to a target with a timeout. -/
abbrev Dialer := Nat → String → Nat → DialResult

/-- The observable steps of `main`. A dial is recorded with the field its
result is stored into, the target, the timeout and the result. -/
inductive Event
  | assignStr (target : StrPtr) (v : String)
  | dial (conn : ConnPtr) (addr : String) (timeout : Nat) (res : DialResult)
  | assignConn (conn : ConnPtr) (c : Option Conn)
  | logPrintf (msg : String)
  | listenAndServe (endpoint : String)
  deriving DecidableEq, Repr

def Event.isDial : Event → Bool
  | .dial _ _ _ _ => true
  | _ => false

def Event.isListen : Event → Bool
  | .listenAndServe _ => true
  | _ => false

/-- The value handed to `panic`: a string (`mustMapEnv`) or a wrapped error
(`mustConnGRPC`, message and cause of `errors.Wrapf`). -/
inductive PanicValue
  | str (s : String)
  | wrapped (msg : String) (cause : String)
  deriving DecidableEq, Repr

structure ProcState where
  svc : frontendServer
  trace : List Event
  deriving DecidableEq, Repr

/-- Result of running a piece of the program: it returns normally or panics,
in both cases with the state reached. -/
inductive Result (α : Type)
  | ok (a : α) (s : ProcState)
  | panic (v : PanicValue) (s : ProcState)

def Result.state {α : Type} : Result α → ProcState
  | .ok _ s => s
  | .panic _ s => s

def Result.panicValue {α : Type} : Result α → Option PanicValue
  | .ok _ _ => none
  | .panic v _ => some v

def Result.isOk {α : Type} : Result α → Bool
  | .ok _ _ => true
  | .panic _ _ => false

/-- Programs over the process state that may panic. -/
def Proc (α : Type) : Type := ProcState → Result α

def Proc.pure {α : Type} (a : α) : Proc α := fun s => .ok a s

def Proc.bind {α β : Type} (x : Proc α) (f : α → Proc β) : Proc β := fun s =>
  match x s with
  | .ok a s1 => f a s1
  | .panic v s1 => .panic v s1

instance : Monad Proc where
  pure := Proc.pure
  bind := Proc.bind

def Proc.emit (e : Event) : Proc Unit := fun s =>
  .ok () { s with trace := s.trace ++ [e] }

def Proc.getSvc : Proc frontendServer := fun s => .ok s.svc s

def Proc.setSvc (svc : frontendServer) : Proc Unit := fun s =>
  .ok () { s with svc := svc }

def Proc.getTrace : Proc (List Event) := fun s => .ok s.trace s

def Proc.throwPanic {α : Type} (v : PanicValue) : Proc α := fun s => .panic v s

/-- Go `%q` on a string of printable ASCII: double quotes around the text,
with backslash and double quote escaped. -/
def quoteQ (s : String) : String :=
  "\x22" ++ String.join (s.data.map fun c =>
    if c = '\x22' then "\x5c\x22" else if c = '\x5c' then "\x5c\x5c"
    else String.singleton c) ++ "\x22"

/-- Source `mustMapEnv` (main.go, lines 92-98). -/
def mustMapEnv (env : Env) (target : StrPtr) (envKey : String) : Proc Unit := do
  let v := Getenv env envKey
  if v = "" then
    Proc.throwPanic (.str ("environment variable " ++ quoteQ envKey ++ " not set"))
  else do
    let svc ← Proc.getSvc
    Proc.setSvc (svc.storeStr target v)
    Proc.emit (.assignStr target v)

/-- Source `mustConnGRPC` (main.go, lines 100-106): the result of the dial
is stored through `conn` before the error is looked at. -/
def mustConnGRPC (dialer : Dialer) (conn : ConnPtr) (addr : String) : Proc Unit := do
  let tr ← Proc.getTrace
  let res := dialer (tr.filter Event.isDial).length addr (timeSecond * 3)
  Proc.emit (.dial conn addr (timeSecond * 3) res)
  let svc ← Proc.getSvc
  match res with
  | .ok c =>
    Proc.setSvc (svc.storeConn conn (some c))
    Proc.emit (.assignConn conn (some c))
  | .error err =>
    Proc.setSvc (svc.storeConn conn none)
    Proc.emit (.assignConn conn none)
    Proc.throwPanic (.wrapped ("grpc: failed to connect " ++ addr) err)

/-! ## The router library (gorilla/mux), as far as `main` uses it -/

namespace mux

/-- One piece of a compiled path template: a literal character, or a
variable `{name}` with the default pattern `[^/]+`. -/
inductive Seg
  | lit (c : Char)
  | var
  deriving DecidableEq, Repr

/-- Compilation of a path template into pieces. The flag says whether the
scan is inside the braces of a variable. A template with unbalanced or
nested braces, or with a custom pattern `{name:pattern}`, is not in the
modelled fragment and yields `none` (such a route never matches). -/
def parseTpl : Bool → List Char → Option (List Seg)
  | false, [] => some []
  | true, [] => none
  | false, c :: t =>
    if c = '\x7b' then (parseTpl true t).map (Seg.var :: ·)
    else if c = '\x7d' then none
    else (parseTpl false t).map (Seg.lit c :: ·)
  | true, c :: t =>
    if c = '\x7d' then parseTpl false t
    else if c = '\x7b' ∨ c = ':' then none
    else parseTpl true t

/-- The pattern `[^/]+` followed by the continuation `k`: one or more
characters other than the slash, then the rest of the pattern. -/
def matchVar (k : List Char → Bool) : List Char → Bool
  | [] => false
  | c :: cs => c != '/' && (k cs || matchVar k cs)

/-- Anchored match of a compiled template against a path. With `pfx` the
pattern has no end anchor (`PathPrefix`); otherwise the whole path must be
consumed (`Path`, strict slash off). -/
def matchSegs : List Seg → Bool → List Char → Bool
  | [], pfx, p => pfx || p.isEmpty
  | Seg.lit _ :: _, _, [] => false
  | Seg.lit c :: t, pfx, d :: p => c == d && matchSegs t pfx p
  | Seg.var :: t, pfx, p => matchVar (matchSegs t pfx) p

/-- A request as far as routing looks at it: method and URL path. -/
structure Request where
  method : String
  path : String
  deriving DecidableEq, Repr

/-- The matchers a route can carry here: a path template (exact or prefix)
and a list of accepted methods. -/
inductive Matcher
  | path (tpl : String) (pfx : Bool)
  | methods (ms : List String)
  deriving DecidableEq, Repr

def Matcher.isMethodMatcher : Matcher → Bool
  | .methods _ => true
  | .path _ _ => false

/-- The path matcher: the template is compiled, and the compiled pattern is
matched against the path. A template that does not compile matches nothing. -/
def matchPath (tpl : String) (pfx : Bool) (path : String) : Bool :=
  match parseTpl false tpl.data with
  | some segs => matchSegs segs pfx path.data
  | none => false

def Matcher.Match (mt : Matcher) (req : Request) : Bool :=
  match mt with
  | .path tpl pfx => matchPath tpl pfx req.path
  | .methods ms => ms.contains req.method

structure Route (H : Type) where
  matchers : List Matcher
  handler : Option H
  deriving DecidableEq, Repr

inductive MatchError
  | ErrMethodMismatch
  | ErrNotFound
  deriving DecidableEq, Repr

/-- The part of `RouteMatch` that routing decisions depend on. -/
structure RouteMatch (H : Type) where
  Handler : Option H
  MatchErr : Option MatchError

/-- The loop over the matchers in `Route.Match`. The accumulator is the
local `matchErr`. A failing method matcher records `ErrMethodMismatch` and
the loop goes on; any other failing matcher ends the match (`none`). -/
def matchLoop (req : Request) : List Matcher → Option MatchError → Option (Option MatchError)
  | [], e => some e
  | mt :: rest, e =>
    if mt.Match req then matchLoop req rest e
    else if mt.isMethodMatcher then matchLoop req rest (some .ErrMethodMismatch)
    else none

/-- Library `Route.Match`: whether the route matches, and the updated
match record. -/
def Route.Match {H : Type} (r : Route H) (req : Request) (mt : RouteMatch H) :
    Bool × RouteMatch H :=
  match matchLoop req r.matchers none with
  | none => (false, mt)
  | some (some e) => (false, { mt with MatchErr := some e })
  | some none =>
    let mt1 : RouteMatch H :=
      if mt.MatchErr = some .ErrMethodMismatch then { Handler := r.handler, MatchErr := none }
      else mt
    let mt2 : RouteMatch H :=
      if mt1.Handler.isNone then { mt1 with Handler := r.handler } else mt1
    (true, mt2)

/-- The loop over the routes in `Router.Match`: the first route that
matches ends the search. -/
def matchRoutes {H : Type} (req : Request) : List (Route H) → RouteMatch H → Bool × RouteMatch H
  | [], mt => (false, mt)
  | r :: rest, mt =>
    match r.Match req mt with
    | (true, mt1) => (true, mt1)
    | (false, mt1) => matchRoutes req rest mt1

structure Router (H : Type) where
  routes : List (Route H)

/-- Library `Router.Match`, with no custom not-found or method-not-allowed
handler installed (as in `main`). -/
def Router.Match {H : Type} (r : Router H) (req : Request) (mt : RouteMatch H) :
    Bool × RouteMatch H :=
  match matchRoutes req r.routes mt with
  | (true, mt1) => (true, mt1)
  | (false, mt1) =>
    if mt1.MatchErr = some .ErrMethodMismatch then (false, mt1)
    else (false, { mt1 with MatchErr := some .ErrNotFound })

/-- What the router answers a request with. -/
inductive Served (H : Type)
  | handler (h : H)
  | methodNotAllowed
  | notFound
  deriving DecidableEq, Repr

/-- The second half of library `Router.ServeHTTP`, run once the path has
passed the clean-path check (see `Router.ServeHTTP` below): the table is
looked up with `Router.Match`; the matched handler is invoked, a method
mismatch is answered by the method-not-allowed handler, everything else by
the not-found handler. -/
def Router.dispatch {H : Type} (r : Router H) (req : Request) : Served H :=
  let res := r.Match req { Handler := none, MatchErr := none }
  let handler : Option H := if res.1 then res.2.Handler else none
  match handler with
  | some h => .handler h
  | none =>
    if res.2.MatchErr = some .ErrMethodMismatch then .methodNotAllowed
    else .notFound

/-- The path split at its slashes: the pieces between them, the empty
pieces of a leading, trailing or doubled slash included. -/
def splitSlash : List Char → List (List Char)
  | [] => [[]]
  | c :: cs =>
    if c = '/' then [] :: splitSlash cs
    else
      match splitSlash cs with
      | [] => [[c]]
      | seg :: segs => (c :: seg) :: segs

/-- The elements of a rooted path that Go `path.Clean` keeps, given those
kept so far (last one first): an empty element and `.` are dropped, `..`
drops the element before it (and is itself dropped at the root), anything
else is kept. -/
def cleanElems : List (List Char) → List (List Char) → List (List Char)
  | kept, [] => kept.reverse
  | kept, seg :: rest =>
    if seg = [] ∨ seg = ['.'] then cleanElems kept rest
    else if seg = ['.', '.'] then cleanElems kept.tail rest
    else cleanElems (seg :: kept) rest

/-- The kept elements written back as a rooted path. -/
def joinRooted : List (List Char) → List Char
  | [] => ['/']
  | [seg] => '/' :: seg
  | seg :: rest => '/' :: seg ++ joinRooted rest

/-- Go `path.Clean` on a rooted path (one that starts with a slash). -/
def pathCleanRooted (p : List Char) : List Char :=
  joinRooted (cleanElems [] (splitSlash p))

/-- Library `cleanPath`: the canonical form of a URL path. The empty path
becomes the root, a path without a leading slash gets one, the path is
cleaned, and a trailing slash that cleaning removed is put back. -/
def cleanPath (p : String) : String :=
  if p = "" then "/"
  else
    let q : List Char := if p.data.head? = some '/' then p.data else '/' :: p.data
    let np := pathCleanRooted q
    if q.getLast? = some '/' ∧ np ≠ ['/'] then String.mk (np ++ ['/']) else String.mk np

/-- What the router writes: a 301 redirect to a location, or the answer of
the table lookup. -/
inductive Response (H : Type)
  | movedPermanently (location : String)
  | served (s : Served H)
  deriving DecidableEq, Repr

/-- Library `Router.ServeHTTP` for a router on which `SkipClean` was not
called (as in `main`): a path that differs from its canonical form is
answered with a redirect to that form and the table is not consulted;
otherwise the request is dispatched through the table. -/
def Router.ServeHTTP {H : Type} (r : Router H) (req : Request) : Response H :=
  if cleanPath req.path ≠ req.path then .movedPermanently (cleanPath req.path)
  else .served (r.dispatch req)

def NewRouter {H : Type} : Router H := { routes := [] }

/-- Update of the route registered last (the receiver of a chained call). -/
def Router.updateLast {H : Type} (r : Router H) (f : Route H → Route H) : Router H :=
  match r.routes.reverse with
  | [] => r
  | last :: before => { routes := (f last :: before).reverse }

/-- Library `Router.HandleFunc(path, f)`: a new route with a path matcher
and a handler. -/
def Router.HandleFunc {H : Type} (r : Router H) (path : String) (f : H) : Router H :=
  { routes := r.routes ++ [{ matchers := [.path path false], handler := some f }] }

/-- Library `Router.PathPrefix(tpl)`: a new route with a prefix matcher. -/
def Router.PathPrefix {H : Type} (r : Router H) (tpl : String) : Router H :=
  { routes := r.routes ++ [{ matchers := [.path tpl true], handler := none }] }

/-- Go `strings.ToUpper`, character by character (ASCII letters). -/
def ToUpper (s : String) : String :=
  String.mk (s.data.map Char.toUpper)

/-- Library `Route.Methods(methods...)` on the route registered last: a
method matcher (on the upper-cased names) is added after its matchers. -/
def Router.Methods {H : Type} (r : Router H) (methods : List String) : Router H :=
  r.updateLast fun rt =>
    { rt with matchers := rt.matchers ++ [.methods (methods.map ToUpper)] }

/-- Library `Route.Handler(h)` on the route registered last. -/
def Router.Handler {H : Type} (r : Router H) (h : H) : Router H :=
  r.updateLast fun rt => { rt with handler := some h }

end mux

/-! ## The route table and `main` (main.go, lines 54-90) -/

def MethodGet : String := "GET"

def MethodHead : String := "HEAD"

def MethodPost : String := "POST"

/-- The handler methods of the server that `main` registers; their bodies
live outside `main.go`. -/
inductive SvcMethod
  | homeHandler
  | productHandler
  | viewCartHandler
  | addToCartHandler
  | emptyCartHandler
  | setCurrencyHandler
  | logoutHandler
  | placeOrderHandler
  deriving DecidableEq, Repr

/-- The handler expressions that `main` passes to the router. The
middleware `ensureSessionID` and the library functions `http.StripPrefix`,
`http.FileServer`, `http.Dir` are kept as constructors. -/
inductive HandlerExpr
  | svc (f : SvcMethod)
  | ensureSessionID (next : HandlerExpr)
  | StripPrefix (pre : String) (h : HandlerExpr)
  | FileServer (dir : String)
  deriving DecidableEq, Repr

def HandlerExpr.isSessionGated : HandlerExpr → Bool
  | .ensureSessionID _ => true
  | _ => false

/-- The router built in lines 78-87 of `main`. -/
def mainRouter : mux.Router HandlerExpr :=
  mux.NewRouter
  |>.HandleFunc "/" (.ensureSessionID (.svc .homeHandler))
  |>.Methods [MethodGet, MethodHead]
  |>.HandleFunc "/product/{id}" (.ensureSessionID (.svc .productHandler))
  |>.Methods [MethodGet, MethodHead]
  |>.HandleFunc "/cart" (.ensureSessionID (.svc .viewCartHandler))
  |>.Methods [MethodGet, MethodHead]
  |>.HandleFunc "/cart" (.ensureSessionID (.svc .addToCartHandler))
  |>.Methods [MethodPost]
  |>.HandleFunc "/cart/empty" (.ensureSessionID (.svc .emptyCartHandler))
  |>.Methods [MethodPost]
  |>.HandleFunc "/setCurrency" (.ensureSessionID (.svc .setCurrencyHandler))
  |>.Methods [MethodPost]
  |>.HandleFunc "/logout" (.svc .logoutHandler)
  |>.Methods [MethodGet]
  |>.HandleFunc "/cart/checkout" (.ensureSessionID (.svc .placeOrderHandler))
  |>.Methods [MethodPost]
  |>.PathPrefix "/static/"
  |>.Handler (.StripPrefix "/static/" (.FileServer "./static/"))

/-- What `main` ends in when it does not panic: the call
`http.ListenAndServe(endpoint, r)`. -/
structure Serving where
  endpoint : String
  router : mux.Router HandlerExpr

/-- Source `main` (lines 54-90), run from the state in which `svc` is the
fresh `new(frontendServer)`. -/
def mainBody (env : Env) (dialer : Dialer) : Proc Serving := do
  let srvPort := if Getenv env "PORT" ≠ "" then Getenv env "PORT" else port
  let addr := Getenv env "LISTEN_ADDR"
  mustMapEnv env .productCatalogSvcAddr "PRODUCT_CATALOG_SERVICE_ADDR"
  mustMapEnv env .currencySvcAddr "CURRENCY_SERVICE_ADDR"
  mustMapEnv env .cartSvcAddr "CART_SERVICE_ADDR"
  mustMapEnv env .recommendationSvcAddr "RECOMMENDATION_SERVICE_ADDR"
  mustMapEnv env .checkoutSvcAddr "CHECKOUT_SERVICE_ADDR"
  mustMapEnv env .shippingSvcAddr "SHIPPING_SERVICE_ADDR"
  mustConnGRPC dialer .currencySvcConn (← Proc.getSvc).currencySvcAddr
  mustConnGRPC dialer .productCatalogSvcConn (← Proc.getSvc).productCatalogSvcAddr
  mustConnGRPC dialer .cartSvcConn (← Proc.getSvc).cartSvcAddr
  mustConnGRPC dialer .recommendationSvcConn (← Proc.getSvc).recommendationSvcAddr
  mustConnGRPC dialer .shippingSvcConn (← Proc.getSvc).shippingSvcAddr
  mustConnGRPC dialer .checkoutSvcConn (← Proc.getSvc).checkoutSvcAddr
  let r := mainRouter
  Proc.emit (.logPrintf ("starting server on " ++ addr ++ ":" ++ srvPort))
  Proc.emit (.listenAndServe (addr ++ ":" ++ srvPort))
  pure { endpoint := addr ++ ":" ++ srvPort, router := r }

def main (env : Env) (dialer : Dialer) : Result Serving :=
  mainBody env dialer { svc := frontendServer.new, trace := [] }

end Frontend

/-! ## Vocabulary of the specification -/

namespace Frontend

/-- The six backend service kinds. -/
inductive Kind
  | productCatalog
  | currency
  | cart
  | recommendation
  | checkout
  | shipping
  deriving DecidableEq, Repr

def Kind.all : List Kind :=
  [.productCatalog, .currency, .cart, .recommendation, .checkout, .shipping]

/-- The environment variable that carries the address of a kind. -/
def Kind.envVar : Kind → String
  | .productCatalog => "PRODUCT_CATALOG_SERVICE_ADDR"
  | .currency => "CURRENCY_SERVICE_ADDR"
  | .cart => "CART_SERVICE_ADDR"
  | .recommendation => "RECOMMENDATION_SERVICE_ADDR"
  | .checkout => "CHECKOUT_SERVICE_ADDR"
  | .shipping => "SHIPPING_SERVICE_ADDR"

/-- The address field of a kind. -/
def Kind.addrPtr : Kind → StrPtr
  | .productCatalog => .productCatalogSvcAddr
  | .currency => .currencySvcAddr
  | .cart => .cartSvcAddr
  | .recommendation => .recommendationSvcAddr
  | .checkout => .checkoutSvcAddr
  | .shipping => .shippingSvcAddr

/-- The connection field of a kind. -/
def Kind.connPtr : Kind → ConnPtr
  | .productCatalog => .productCatalogSvcConn
  | .currency => .currencySvcConn
  | .cart => .cartSvcConn
  | .recommendation => .recommendationSvcConn
  | .checkout => .checkoutSvcConn
  | .shipping => .shippingSvcConn

/-- The load `*target`. -/
def frontendServer.loadStr (svc : frontendServer) : StrPtr → String
  | .productCatalogSvcAddr => svc.productCatalogSvcAddr
  | .currencySvcAddr => svc.currencySvcAddr
  | .cartSvcAddr => svc.cartSvcAddr
  | .recommendationSvcAddr => svc.recommendationSvcAddr
  | .checkoutSvcAddr => svc.checkoutSvcAddr
  | .shippingSvcAddr => svc.shippingSvcAddr

/-- The load `*conn`. -/
def frontendServer.loadConn (svc : frontendServer) : ConnPtr → Option Conn
  | .productCatalogSvcConn => svc.productCatalogSvcConn
  | .currencySvcConn => svc.currencySvcConn
  | .cartSvcConn => svc.cartSvcConn
  | .recommendationSvcConn => svc.recommendationSvcConn
  | .checkoutSvcConn => svc.checkoutSvcConn
  | .shippingSvcConn => svc.shippingSvcConn

/-- The six required variables, in the order the specification lists them. -/
def requiredVars : List String :=
  ["PRODUCT_CATALOG_SERVICE_ADDR", "CURRENCY_SERVICE_ADDR", "CART_SERVICE_ADDR",
   "RECOMMENDATION_SERVICE_ADDR", "CHECKOUT_SERVICE_ADDR", "SHIPPING_SERVICE_ADDR"]

/-- A variable has a non-empty value: it is set, and not to the empty string. -/
def hasValue (env : Env) (key : String) : Bool :=
  match env key with
  | some v => v != ""
  | none => false

/-- The first required variable, in the listed order, without a value. -/
def firstMissing (env : Env) : Option String :=
  requiredVars.find? fun k => !hasValue env k

/-- The dial timeout of the specification: three seconds, in nanoseconds. -/
def threeSeconds : Nat := 3000000000

/-- The kinds in the order `main` dials them. -/
def dialOrder : List Kind :=
  [.currency, .productCatalog, .cart, .recommendation, .shipping, .checkout]

/-- The dial events of a start-up in which every dial is attempted: call
number `i` goes to the configured address of the `i`-th kind of `dialOrder`
and carries what the dialer answers to it. -/
def expectedDials (env : Env) (dialer : Dialer) : List Event :=
  dialOrder.enum.map fun (i, k) =>
    .dial k.connPtr (Getenv env k.envVar) threeSeconds
      (dialer i (Getenv env k.envVar) threeSeconds)

/-- The field a dial event stores into. -/
def Event.dialConn : Event → Option ConnPtr
  | .dial c _ _ _ => some c
  | _ => none

/-- The result carried by a dial event is an error. -/
def Event.dialFailed : Event → Bool
  | .dial _ _ _ (.error _) => true
  | _ => false

/-- The listen port of the specification: `PORT` when it has a value,
otherwise 8080. -/
def listenPort (env : Env) : String :=
  if hasValue env "PORT" then (env "PORT").getD "" else "8080"

/-- The connection a dial result leaves in the field: `nil` on an error. -/
def DialResult.conn : DialResult → Option Conn
  | .ok c => some c
  | .error _ => none

/-- The address the `i`-th dial of a start-up goes to. -/
def dialAddr (env : Env) (i : Nat) : String :=
  match dialOrder.get? i with
  | some k => Getenv env k.envVar
  | none => ""

/-- The state `main` is in once every required variable has been read and
the dials made so far have returned `rs`, in order. -/
def stateAfter (env : Env) (rs : List DialResult) : ProcState :=
  { svc := (dialOrder.zip rs).foldl (fun svc kr => svc.storeConn kr.1.connPtr kr.2.conn)
      { frontendServer.new with
        productCatalogSvcAddr := Getenv env "PRODUCT_CATALOG_SERVICE_ADDR",
        currencySvcAddr := Getenv env "CURRENCY_SERVICE_ADDR",
        cartSvcAddr := Getenv env "CART_SERVICE_ADDR",
        recommendationSvcAddr := Getenv env "RECOMMENDATION_SERVICE_ADDR",
        checkoutSvcAddr := Getenv env "CHECKOUT_SERVICE_ADDR",
        shippingSvcAddr := Getenv env "SHIPPING_SERVICE_ADDR" },
    trace := Kind.all.map (fun k => Event.assignStr k.addrPtr (Getenv env k.envVar)) ++
      (dialOrder.zip rs).flatMap fun kr =>
        [Event.dial kr.1.connPtr (Getenv env kr.1.envVar) threeSeconds kr.2,
         Event.assignConn kr.1.connPtr kr.2.conn] }

/-- The endpoint of the specification: listen address, colon, listen port. -/
def listenEndpoint (env : Env) : String :=
  (env "LISTEN_ADDR").getD "" ++ ":" ++ listenPort env

/-- The state in which `main` calls `ListenAndServe`. -/
def servingState (env : Env) (rs : List DialResult) : ProcState :=
  { stateAfter env rs with
    trace := (stateAfter env rs).trace ++
      [Event.logPrintf ("starting server on " ++ listenEndpoint env),
       Event.listenAndServe (listenEndpoint env)] }

/-- The run ended in the panic of `mustMapEnv` (the only panic whose value
is a plain string). -/
def Result.panickedInMustMapEnv {α : Type} (r : Result α) : Bool :=
  match r.panicValue with
  | some (.str _) => true
  | _ => false

/-- The event assigns through the given address pointer. -/
def Event.assignsStr (p : StrPtr) : Event → Bool
  | .assignStr t _ => decide (t = p)
  | _ => false

/-- The event assigns through the given connection pointer. -/
def Event.assignsConn (p : ConnPtr) : Event → Bool
  | .assignConn c _ => decide (c = p)
  | _ => false

/-- The event is a dial on behalf of the given connection field. -/
def Event.dialsFor (p : ConnPtr) : Event → Bool
  | .dial c _ _ _ => decide (c = p)
  | _ => false

namespace mux

/-- The path pattern of the route matches the request: every matcher other
than a method matcher does. -/
def Route.pathMatches {H : Type} (r : Route H) (req : Request) : Bool :=
  r.matchers.all fun mt => mt.isMethodMatcher || mt.Match req

/-- The route accepts the method of the request: every method matcher of
the route does. -/
def Route.methodAccepts {H : Type} (r : Route H) (req : Request) : Bool :=
  r.matchers.all fun mt => !mt.isMethodMatcher || mt.Match req

/-- The route matches the request: all its matchers do. -/
def Route.Matches {H : Type} (r : Route H) (req : Request) : Bool :=
  r.matchers.all fun mt => mt.Match req

end mux

/-- A product path: `/product/` followed by a single non-empty segment. -/
def isProductPath (p : String) : Prop :=
  ∃ id : String, id ≠ "" ∧ '/' ∉ id.data ∧ p = "/product/" ++ id

/-- A path under the static prefix. -/
def isStaticPath (p : String) : Prop :=
  ∃ rest : String, p = "/static/" ++ rest

/-- The handler `main` registers on the static prefix. -/
def staticHandler : HandlerExpr :=
  .StripPrefix "/static/" (.FileServer "./static/")

/-- A session-gated handler method. -/
def gated (f : SvcMethod) : HandlerExpr :=
  .ensureSessionID (.svc f)

/-- The HTTP surface as the specification lists it: method, path and the
handler that serves them. -/
def documentedRoute (m p : String) (h : HandlerExpr) : Prop :=
  ((m = "GET" ∨ m = "HEAD") ∧ p = "/" ∧ h = gated .homeHandler) ∨
  ((m = "GET" ∨ m = "HEAD") ∧ isProductPath p ∧ h = gated .productHandler) ∨
  ((m = "GET" ∨ m = "HEAD") ∧ p = "/cart" ∧ h = gated .viewCartHandler) ∨
  (m = "POST" ∧ p = "/cart" ∧ h = gated .addToCartHandler) ∨
  (m = "POST" ∧ p = "/cart/empty" ∧ h = gated .emptyCartHandler) ∨
  (m = "POST" ∧ p = "/setCurrency" ∧ h = gated .setCurrencyHandler) ∨
  (m = "GET" ∧ p = "/logout" ∧ h = .svc .logoutHandler) ∨
  (m = "POST" ∧ p = "/cart/checkout" ∧ h = gated .placeOrderHandler)

/-! ## Sample inputs -/

/-- An environment with the six addresses set and nothing else. -/
def sampleEnv : Env := fun k =>
  [("PRODUCT_CATALOG_SERVICE_ADDR", "catalog:3550"), ("CURRENCY_SERVICE_ADDR", "currency:7000"),
   ("CART_SERVICE_ADDR", "cart:7070"), ("RECOMMENDATION_SERVICE_ADDR", "recommend:8080"),
   ("CHECKOUT_SERVICE_ADDR", "checkout:5050"), ("SHIPPING_SERVICE_ADDR", "shipping:50051")].lookup k

/-- The sample environment with the cart address unset. -/
def envWithoutCart : Env := fun k =>
  if k = "CART_SERVICE_ADDR" then none else sampleEnv k

/-- A dialer whose every dial succeeds, with the call number as handle. -/
def okDialer : Dialer := fun n _ _ => .ok n

/-- A dialer whose third dial (call number 2) fails. -/
def failingDialer : Dialer := fun n _ _ =>
  if n = 2 then .error "connection refused" else .ok n

end Frontend

/-! ## Lemmas on the start-up program -/

namespace Frontend

theorem bind_eq {α β : Type} (x : Proc α) (f : α → Proc β) : (x >>= f) = Proc.bind x f := rfl

theorem pure_eq {α : Type} (a : α) : (pure a : Proc α) = Proc.pure a := rfl

theorem hasValue_iff (env : Env) (k : String) : hasValue env k = true ↔ Getenv env k ≠ "" := by
  unfold hasValue Getenv
  cases env k <;> simp

theorem hasValue_false_iff (env : Env) (k : String) :
    hasValue env k = false ↔ Getenv env k = "" := by
  unfold hasValue Getenv
  cases env k <;> simp

theorem mustMapEnv_ok (env : Env) (t : StrPtr) (k : String) (s : ProcState)
    (h : hasValue env k = true) :
    mustMapEnv env t k s = .ok () { svc := s.svc.storeStr t (Getenv env k),
                                    trace := s.trace ++ [.assignStr t (Getenv env k)] } := by
  rw [hasValue_iff] at h
  simp [mustMapEnv, h, bind_eq, Proc.bind, Proc.getSvc, Proc.setSvc, Proc.emit]

theorem mustMapEnv_panic (env : Env) (t : StrPtr) (k : String) (s : ProcState)
    (h : hasValue env k = false) :
    mustMapEnv env t k s =
      .panic (.str ("environment variable " ++ quoteQ k ++ " not set")) s := by
  rw [hasValue_false_iff] at h
  simp [mustMapEnv, h, bind_eq, Proc.bind, Proc.throwPanic]

theorem mustConnGRPC_eq (d : Dialer) (c : ConnPtr) (a : String) (s : ProcState) :
    mustConnGRPC d c a s =
      match d (s.trace.filter Event.isDial).length a threeSeconds with
      | .ok h => .ok () { svc := s.svc.storeConn c (some h),
                          trace := s.trace ++ [.dial c a threeSeconds (.ok h),
                                               .assignConn c (some h)] }
      | .error e => .panic (.wrapped ("grpc: failed to connect " ++ a) e)
                      { svc := s.svc.storeConn c none,
                        trace := s.trace ++ [.dial c a threeSeconds (.error e),
                                             .assignConn c none] } := by
  have ht : timeSecond * 3 = threeSeconds := by decide
  simp only [mustConnGRPC, bind_eq, Proc.bind, Proc.getTrace, Proc.emit, Proc.getSvc, ht]
  cases h : d (s.trace.filter Event.isDial).length a threeSeconds <;>
    simp [Proc.bind, Proc.setSvc, Proc.emit, Proc.throwPanic, h]

theorem listenEndpoint_eq (env : Env) :
    Getenv env "LISTEN_ADDR" ++ ":" ++
      (if Getenv env "PORT" ≠ "" then Getenv env "PORT" else port) = listenEndpoint env := by
  unfold listenEndpoint listenPort Getenv port hasValue
  cases env "PORT" <;> simp

theorem startLog_eq (env : Env) :
    "starting server on " ++ Getenv env "LISTEN_ADDR" ++ ":" ++
      (if Getenv env "PORT" ≠ "" then Getenv env "PORT" else port) =
    "starting server on " ++ listenEndpoint env := by
  rw [← listenEndpoint_eq, String.append_assoc, String.append_assoc, String.append_assoc]

/-- The run of `main` in an environment with all six addresses: it panics at
the first dial that fails, or reaches the listen call after six dials. -/
theorem main_configured (env : Env) (d : Dialer)
    (hcfg : ∀ k ∈ requiredVars, hasValue env k = true) :
    (∃ e, d 0 (Getenv env "CURRENCY_SERVICE_ADDR") threeSeconds = .error e ∧
        main env d = .panic (.wrapped ("grpc: failed to connect " ++ Getenv env "CURRENCY_SERVICE_ADDR") e)
          (stateAfter env [.error e])) ∨
    (∃ c0 e, d 0 (Getenv env "CURRENCY_SERVICE_ADDR") threeSeconds = .ok c0 ∧
        d 1 (Getenv env "PRODUCT_CATALOG_SERVICE_ADDR") threeSeconds = .error e ∧
        main env d = .panic (.wrapped ("grpc: failed to connect " ++ Getenv env "PRODUCT_CATALOG_SERVICE_ADDR") e)
          (stateAfter env [.ok c0, .error e])) ∨
    (∃ c0 c1 e, d 0 (Getenv env "CURRENCY_SERVICE_ADDR") threeSeconds = .ok c0 ∧
        d 1 (Getenv env "PRODUCT_CATALOG_SERVICE_ADDR") threeSeconds = .ok c1 ∧
        d 2 (Getenv env "CART_SERVICE_ADDR") threeSeconds = .error e ∧
        main env d = .panic (.wrapped ("grpc: failed to connect " ++ Getenv env "CART_SERVICE_ADDR") e)
          (stateAfter env [.ok c0, .ok c1, .error e])) ∨
    (∃ c0 c1 c2 e, d 0 (Getenv env "CURRENCY_SERVICE_ADDR") threeSeconds = .ok c0 ∧
        d 1 (Getenv env "PRODUCT_CATALOG_SERVICE_ADDR") threeSeconds = .ok c1 ∧
        d 2 (Getenv env "CART_SERVICE_ADDR") threeSeconds = .ok c2 ∧
        d 3 (Getenv env "RECOMMENDATION_SERVICE_ADDR") threeSeconds = .error e ∧
        main env d = .panic (.wrapped ("grpc: failed to connect " ++ Getenv env "RECOMMENDATION_SERVICE_ADDR") e)
          (stateAfter env [.ok c0, .ok c1, .ok c2, .error e])) ∨
    (∃ c0 c1 c2 c3 e, d 0 (Getenv env "CURRENCY_SERVICE_ADDR") threeSeconds = .ok c0 ∧
        d 1 (Getenv env "PRODUCT_CATALOG_SERVICE_ADDR") threeSeconds = .ok c1 ∧
        d 2 (Getenv env "CART_SERVICE_ADDR") threeSeconds = .ok c2 ∧
        d 3 (Getenv env "RECOMMENDATION_SERVICE_ADDR") threeSeconds = .ok c3 ∧
        d 4 (Getenv env "SHIPPING_SERVICE_ADDR") threeSeconds = .error e ∧
        main env d = .panic (.wrapped ("grpc: failed to connect " ++ Getenv env "SHIPPING_SERVICE_ADDR") e)
          (stateAfter env [.ok c0, .ok c1, .ok c2, .ok c3, .error e])) ∨
    (∃ c0 c1 c2 c3 c4 e, d 0 (Getenv env "CURRENCY_SERVICE_ADDR") threeSeconds = .ok c0 ∧
        d 1 (Getenv env "PRODUCT_CATALOG_SERVICE_ADDR") threeSeconds = .ok c1 ∧
        d 2 (Getenv env "CART_SERVICE_ADDR") threeSeconds = .ok c2 ∧
        d 3 (Getenv env "RECOMMENDATION_SERVICE_ADDR") threeSeconds = .ok c3 ∧
        d 4 (Getenv env "SHIPPING_SERVICE_ADDR") threeSeconds = .ok c4 ∧
        d 5 (Getenv env "CHECKOUT_SERVICE_ADDR") threeSeconds = .error e ∧
        main env d = .panic (.wrapped ("grpc: failed to connect " ++ Getenv env "CHECKOUT_SERVICE_ADDR") e)
          (stateAfter env [.ok c0, .ok c1, .ok c2, .ok c3, .ok c4, .error e])) ∨
    (∃ c0 c1 c2 c3 c4 c5, d 0 (Getenv env "CURRENCY_SERVICE_ADDR") threeSeconds = .ok c0 ∧
        d 1 (Getenv env "PRODUCT_CATALOG_SERVICE_ADDR") threeSeconds = .ok c1 ∧
        d 2 (Getenv env "CART_SERVICE_ADDR") threeSeconds = .ok c2 ∧
        d 3 (Getenv env "RECOMMENDATION_SERVICE_ADDR") threeSeconds = .ok c3 ∧
        d 4 (Getenv env "SHIPPING_SERVICE_ADDR") threeSeconds = .ok c4 ∧
        d 5 (Getenv env "CHECKOUT_SERVICE_ADDR") threeSeconds = .ok c5 ∧
        main env d = .ok ⟨listenEndpoint env, mainRouter⟩ (servingState env [.ok c0, .ok c1, .ok c2, .ok c3, .ok c4, .ok c5])) := by
  have h1 := hcfg "PRODUCT_CATALOG_SERVICE_ADDR" (by simp [requiredVars])
  have h2 := hcfg "CURRENCY_SERVICE_ADDR" (by simp [requiredVars])
  have h3 := hcfg "CART_SERVICE_ADDR" (by simp [requiredVars])
  have h4 := hcfg "RECOMMENDATION_SERVICE_ADDR" (by simp [requiredVars])
  have h5 := hcfg "CHECKOUT_SERVICE_ADDR" (by simp [requiredVars])
  have h6 := hcfg "SHIPPING_SERVICE_ADDR" (by simp [requiredVars])
  simp only [main, mainBody, bind_eq, pure_eq, Proc.bind, Proc.pure, Proc.emit, mustMapEnv_ok,
    h1, h2, h3, h4, h5, h6, mustConnGRPC_eq, Proc.getSvc, listenEndpoint_eq, startLog_eq]
  simp only [frontendServer.storeStr, frontendServer.new, List.nil_append, List.cons_append,
    List.filter, Event.isDial, List.length]
  cases r0 : d 0 (Getenv env "CURRENCY_SERVICE_ADDR") threeSeconds with
  | error e0 =>
    simp [stateAfter, dialOrder, Kind.all, Kind.connPtr, Kind.envVar, Kind.addrPtr,
      DialResult.conn, frontendServer.storeConn, frontendServer.new]
  | ok c0 =>
    simp only [frontendServer.storeConn, List.nil_append, List.cons_append, List.filter,
      Event.isDial, List.length]
    cases r1 : d 1 (Getenv env "PRODUCT_CATALOG_SERVICE_ADDR") threeSeconds with
    | error e1 =>
      simp [stateAfter, dialOrder, Kind.all, Kind.connPtr, Kind.envVar, Kind.addrPtr,
        DialResult.conn, frontendServer.storeConn, frontendServer.new]
    | ok c1 =>
      simp only [frontendServer.storeConn, List.nil_append, List.cons_append, List.filter,
        Event.isDial, List.length]
      cases r2 : d 2 (Getenv env "CART_SERVICE_ADDR") threeSeconds with
      | error e2 =>
        simp [stateAfter, dialOrder, Kind.all, Kind.connPtr, Kind.envVar, Kind.addrPtr,
          DialResult.conn, frontendServer.storeConn, frontendServer.new]
      | ok c2 =>
        simp only [frontendServer.storeConn, List.nil_append, List.cons_append, List.filter,
          Event.isDial, List.length]
        cases r3 : d 3 (Getenv env "RECOMMENDATION_SERVICE_ADDR") threeSeconds with
        | error e3 =>
          simp [stateAfter, dialOrder, Kind.all, Kind.connPtr, Kind.envVar, Kind.addrPtr,
            DialResult.conn, frontendServer.storeConn, frontendServer.new]
        | ok c3 =>
          simp only [frontendServer.storeConn, List.nil_append, List.cons_append, List.filter,
            Event.isDial, List.length]
          cases r4 : d 4 (Getenv env "SHIPPING_SERVICE_ADDR") threeSeconds with
          | error e4 =>
            simp [stateAfter, dialOrder, Kind.all, Kind.connPtr, Kind.envVar, Kind.addrPtr,
              DialResult.conn, frontendServer.storeConn, frontendServer.new]
          | ok c4 =>
            simp only [frontendServer.storeConn, List.nil_append, List.cons_append, List.filter,
              Event.isDial, List.length]
            cases r5 : d 5 (Getenv env "CHECKOUT_SERVICE_ADDR") threeSeconds with
            | error e5 =>
              simp [stateAfter, dialOrder, Kind.all, Kind.connPtr, Kind.envVar, Kind.addrPtr,
                DialResult.conn, frontendServer.storeConn, frontendServer.new]
            | ok c5 =>
              simp [servingState, stateAfter, dialOrder, Kind.all, Kind.connPtr, Kind.envVar, Kind.addrPtr,
                DialResult.conn, frontendServer.storeConn, frontendServer.new]

theorem hasValue_false_cases (env : Env) (k : String) :
    hasValue env k = false ↔ env k = none ∨ env k = some "" := by
  unfold hasValue
  cases env k <;> simp

theorem quoteQ_requiredVars : ∀ k ∈ requiredVars, quoteQ k = "\x22" ++ k ++ "\x22" := by
  decide

/-- The run of `main` in an environment that lacks a required address: it
panics in `mustMapEnv` on the first missing variable, with no dial and no
listen call made. -/
theorem main_missing (env : Env) (d : Dialer) (k : String) (h : firstMissing env = some k) :
    ∃ s, main env d = .panic (.str ("environment variable \x22" ++ k ++ "\x22 not set")) s ∧
      s.trace.any Event.isDial = false ∧ s.trace.any Event.isListen = false := by
  have hq := quoteQ_requiredVars
  simp only [requiredVars, List.mem_cons, List.mem_singleton, forall_eq_or_imp, forall_eq,
    List.not_mem_nil, false_implies, implies_true, and_true] at hq
  obtain ⟨q1, q2, q3, q4, q5, q6⟩ := hq
  simp only [firstMissing, requiredVars] at h
  simp only [main, mainBody, bind_eq, pure_eq, Proc.bind]
  cases h1 : hasValue env "PRODUCT_CATALOG_SERVICE_ADDR"
  · simp [List.find?, h1] at h
    subst h
    simp [mustMapEnv_panic, h1, q1, frontendServer.new, Event.isDial, Event.isListen]
  simp only [mustMapEnv_ok, h1]
  cases h2 : hasValue env "CURRENCY_SERVICE_ADDR"
  · simp [List.find?, h1, h2] at h
    subst h
    simp [mustMapEnv_panic, h2, q2, frontendServer.new, Event.isDial, Event.isListen]
  simp only [mustMapEnv_ok, h2]
  cases h3 : hasValue env "CART_SERVICE_ADDR"
  · simp [List.find?, h1, h2, h3] at h
    subst h
    simp [mustMapEnv_panic, h3, q3, frontendServer.new, Event.isDial, Event.isListen]
  simp only [mustMapEnv_ok, h3]
  cases h4 : hasValue env "RECOMMENDATION_SERVICE_ADDR"
  · simp [List.find?, h1, h2, h3, h4] at h
    subst h
    simp [mustMapEnv_panic, h4, q4, frontendServer.new, Event.isDial, Event.isListen]
  simp only [mustMapEnv_ok, h4]
  cases h5 : hasValue env "CHECKOUT_SERVICE_ADDR"
  · simp [List.find?, h1, h2, h3, h4, h5] at h
    subst h
    simp [mustMapEnv_panic, h5, q5, frontendServer.new, Event.isDial, Event.isListen]
  simp only [mustMapEnv_ok, h5]
  cases h6 : hasValue env "SHIPPING_SERVICE_ADDR"
  · simp [List.find?, h1, h2, h3, h4, h5, h6] at h
    subst h
    simp [mustMapEnv_panic, h6, q6, frontendServer.new, Event.isDial, Event.isListen]
  simp [List.find?, h1, h2, h3, h4, h5, h6] at h

theorem firstMissing_none_iff (env : Env) :
    firstMissing env = none ↔ ∀ k ∈ requiredVars, hasValue env k = true := by
  simp [firstMissing, List.find?_eq_none]

theorem firstMissing_some_mem (env : Env) (k : String) (h : firstMissing env = some k) :
    k ∈ requiredVars ∧ hasValue env k = false := by
  unfold firstMissing at h
  have h1 := List.find?_some h
  have h2 := List.mem_of_find?_eq_some h
  simp at h1
  exact ⟨h2, h1⟩

/-- A run that reaches the listen call had all six addresses configured. -/
theorem configured_of_ok (env : Env) (d : Dialer) (h : (main env d).isOk = true) :
    ∀ k ∈ requiredVars, hasValue env k = true := by
  cases hm : firstMissing env with
  | some k0 =>
    obtain ⟨s, hs, _⟩ := main_missing env d k0 hm
    rw [hs] at h
    exact Bool.noConfusion h
  | none => exact (firstMissing_none_iff env).1 hm

/-- The run succeeds exactly when the six addresses are configured and none
of the six dials fails. -/
theorem main_isOk_iff (env : Env) (d : Dialer) :
    (main env d).isOk = true ↔
      (∀ k ∈ requiredVars, hasValue env k = true) ∧
      (expectedDials env d).any Event.dialFailed = false := by
  constructor
  · intro h
    have hcfg := configured_of_ok env d h
    refine ⟨hcfg, ?_⟩
    rcases main_configured env d hcfg with
      ⟨e, r0, hm⟩ | ⟨c0, e, r0, r1, hm⟩ | ⟨c0, c1, e, r0, r1, r2, hm⟩ |
      ⟨c0, c1, c2, e, r0, r1, r2, r3, hm⟩ | ⟨c0, c1, c2, c3, e, r0, r1, r2, r3, r4, hm⟩ |
      ⟨c0, c1, c2, c3, c4, e, r0, r1, r2, r3, r4, r5, hm⟩ |
      ⟨c0, c1, c2, c3, c4, c5, r0, r1, r2, r3, r4, r5, hm⟩
    all_goals first
      | (rw [hm] at h; exact Bool.noConfusion h)
      | simp [expectedDials, dialOrder, List.enum, List.enumFrom, Kind.envVar, Event.dialFailed,
          r0, r1, r2, r3, r4, r5]
  · rintro ⟨hcfg, hd⟩
    rcases main_configured env d hcfg with
      ⟨e, r0, hm⟩ | ⟨c0, e, r0, r1, hm⟩ | ⟨c0, c1, e, r0, r1, r2, hm⟩ |
      ⟨c0, c1, c2, e, r0, r1, r2, r3, hm⟩ | ⟨c0, c1, c2, c3, e, r0, r1, r2, r3, r4, hm⟩ |
      ⟨c0, c1, c2, c3, c4, e, r0, r1, r2, r3, r4, r5, hm⟩ |
      ⟨c0, c1, c2, c3, c4, c5, r0, r1, r2, r3, r4, r5, hm⟩
    all_goals first
      | (rw [hm]; rfl)
      | (exfalso
         simp [expectedDials, dialOrder, List.enum, List.enumFrom, Kind.envVar,
           Event.dialFailed, *] at hd)

end Frontend

/-! ## Lemmas on the router lookup -/

namespace Frontend

namespace mux

theorem matchLoop_eq (req : Request) (ms : List Matcher) (e : Option MatchError) :
    matchLoop req ms e =
      if (ms.all fun mt => mt.isMethodMatcher || mt.Match req) = true then
        (if (ms.all fun mt => !mt.isMethodMatcher || mt.Match req) = true then some e
         else some (some .ErrMethodMismatch))
      else none := by
  induction ms generalizing e with
  | nil => simp [matchLoop]
  | cons mt rest ih =>
    simp only [matchLoop, List.all_cons]
    by_cases hm : mt.Match req = true
    · simp [hm, ih]
    · by_cases hk : mt.isMethodMatcher = true
      · simp [hm, hk, ih]
      · simp [hm, hk]

theorem Matches_eq {H : Type} (r : Route H) (req : Request) :
    r.Matches req = (r.pathMatches req && r.methodAccepts req) := by
  unfold Route.Matches Route.pathMatches Route.methodAccepts
  induction r.matchers with
  | nil => rfl
  | cons mt rest ih =>
    simp only [List.all_cons, ih]
    cases mt.Match req <;> cases mt.isMethodMatcher <;> simp

theorem Route_Match_eq {H : Type} (r : Route H) (req : Request) (e : Option MatchError)
    (he : e ≠ some .ErrNotFound) :
    r.Match req { Handler := none, MatchErr := e } =
      if r.Matches req = true then (true, { Handler := r.handler, MatchErr := none })
      else if r.pathMatches req = true then
        (false, { Handler := none, MatchErr := some .ErrMethodMismatch })
      else (false, { Handler := none, MatchErr := e }) := by
  unfold Route.Match
  rw [matchLoop_eq, Matches_eq]
  unfold Route.pathMatches Route.methodAccepts
  by_cases hp : (r.matchers.all fun mt => mt.isMethodMatcher || mt.Match req) = true
  · by_cases hm : (r.matchers.all fun mt => !mt.isMethodMatcher || mt.Match req) = true
    · rcases e with _ | _ | _
      · simp [hp, hm]
      · simp [hp, hm]
      · exact absurd rfl he
    · simp [hp, hm]
  · simp [hp]

theorem matchRoutes_eq {H : Type} (req : Request) (rs : List (Route H))
    (e : Option MatchError) (he : e ≠ some .ErrNotFound) :
    matchRoutes req rs { Handler := none, MatchErr := e } =
      match rs.find? (fun rt => rt.Matches req) with
      | some rt => (true, { Handler := rt.handler, MatchErr := none })
      | none =>
        (false, { Handler := none,
                  MatchErr := if (rs.any fun rt => rt.pathMatches req) = true
                              then some .ErrMethodMismatch else e }) := by
  induction rs generalizing e with
  | nil => simp [matchRoutes]
  | cons r rest ih =>
    simp only [matchRoutes, Route_Match_eq r req e he, List.find?_cons, List.any_cons]
    by_cases hm : r.Matches req = true
    · simp [hm]
    · by_cases hp : r.pathMatches req = true
      · have h1 := ih (some .ErrMethodMismatch) (by simp)
        simp [hm, hp, h1]
      · have h1 := ih e he
        simp [hm, hp, h1]

/-- The answer of the router in terms of its table: the handler of the
first route that matches; failing that, method-not-allowed when the path
pattern of some route matches, and not-found otherwise. -/
theorem dispatch_eq {H : Type} (r : Router H) (req : Request) :
    r.dispatch req =
      match r.routes.find? (fun rt => rt.Matches req) with
      | some rt =>
        (match rt.handler with
         | some h => .handler h
         | none => .notFound)
      | none =>
        if (r.routes.any fun rt => rt.pathMatches req) = true then .methodNotAllowed
        else .notFound := by
  unfold Router.dispatch Router.Match
  rw [matchRoutes_eq req r.routes none (by simp)]
  cases hf : r.routes.find? (fun rt => rt.Matches req) with
  | some rt =>
    cases hh : rt.handler <;> simp [hh]
  | none =>
    by_cases hp : (r.routes.any fun rt => rt.pathMatches req) = true
    · simp [hp]
    · simp [hp]

/-- On a path in canonical form the router answers with what the dispatch
through the table gives; on any other path it answers with a redirect. -/
theorem ServeHTTP_eq {H : Type} (r : Router H) (req : Request) :
    (cleanPath req.path = req.path → r.ServeHTTP req = .served (r.dispatch req)) ∧
    (cleanPath req.path ≠ req.path →
      r.ServeHTTP req = .movedPermanently (cleanPath req.path)) := by
  unfold Router.ServeHTTP
  constructor
  · intro hc
    simp only [hc, ne_eq, not_true_eq_false, if_false]
  · intro hc
    simp only [ne_eq, hc, not_false_eq_true, if_true]

theorem parseTpl_lits (l : List Char) (h : ∀ c ∈ l, c ≠ '\x7b' ∧ c ≠ '\x7d') :
    parseTpl false l = some (l.map Seg.lit) := by
  induction l with
  | nil => rfl
  | cons c t ih =>
    have hc := h c (List.mem_cons_self c t)
    have ht := ih fun x hx => h x (List.mem_cons_of_mem c hx)
    simp [parseTpl, hc.1, hc.2, ht]

theorem matchSegs_lits_append (l : List Char) (rest : List Seg) (pfx : Bool) (p : List Char) :
    matchSegs (l.map Seg.lit ++ rest) pfx p = true ↔
      ∃ q, p = l ++ q ∧ matchSegs rest pfx q = true := by
  induction l generalizing p with
  | nil => simp
  | cons c t ih =>
    cases p with
    | nil =>
      have h0 : matchSegs (Seg.lit c :: (t.map Seg.lit ++ rest)) pfx [] = false := rfl
      simp [h0]
    | cons x xs =>
      have h0 : matchSegs (Seg.lit c :: (t.map Seg.lit ++ rest)) pfx (x :: xs) =
          (c == x && matchSegs (t.map Seg.lit ++ rest) pfx xs) := rfl
      rw [List.map_cons, List.cons_append, h0, Bool.and_eq_true, beq_iff_eq, ih]
      constructor
      · rintro ⟨rfl, q, rfl, hq⟩
        exact ⟨q, rfl, hq⟩
      · rintro ⟨q, hq, hk⟩
        rw [List.cons_append, List.cons.injEq] at hq
        exact ⟨hq.1.symm, q, hq.2, hk⟩

/-- The variable pattern consumes a non-empty run of characters other than
the slash and hands the rest to its continuation. -/
theorem matchVar_iff (k : List Char → Bool) (p : List Char) :
    matchVar k p = true ↔ ∃ a b, p = a ++ b ∧ a ≠ [] ∧ '/' ∉ a ∧ k b = true := by
  induction p with
  | nil =>
    constructor
    · intro h
      exact Bool.noConfusion h
    · rintro ⟨a, b, hab, ha, _⟩
      cases a with
      | nil => exact absurd rfl ha
      | cons x xs => exact List.noConfusion hab
  | cons c cs ih =>
    have h0 : matchVar k (c :: cs) = (c != '/' && (k cs || matchVar k cs)) := rfl
    rw [h0, Bool.and_eq_true, Bool.or_eq_true, ih]
    constructor
    · rintro ⟨hc, h | ⟨a, b, rfl, ha, hsl, hk⟩⟩
      · refine ⟨[c], cs, rfl, by simp, ?_, h⟩
        have : c ≠ '/' := by simpa using hc
        simpa using Ne.symm this
      · refine ⟨c :: a, b, rfl, by simp, ?_, hk⟩
        have : c ≠ '/' := by simpa using hc
        simp [hsl, Ne.symm this]
    · rintro ⟨a, b, hab, ha, hsl, hk⟩
      cases a with
      | nil => exact absurd rfl ha
      | cons x xs =>
        rw [List.cons_append, List.cons.injEq] at hab
        obtain ⟨rfl, rfl⟩ := hab
        have hx : c ≠ '/' := fun h => hsl (by simp [h])
        refine ⟨by simpa using hx, ?_⟩
        cases xs with
        | nil => exact Or.inl hk
        | cons y ys =>
          refine Or.inr ⟨y :: ys, b, rfl, by simp, ?_, hk⟩
          intro hmem
          exact hsl (List.mem_cons_of_mem _ hmem)

/-- A template without variables, matched exactly, matches itself only. -/
theorem matchPath_exact (tpl : String) (h : ∀ c ∈ tpl.data, c ≠ '\x7b' ∧ c ≠ '\x7d')
    (p : String) : matchPath tpl false p = decide (p = tpl) := by
  unfold matchPath
  rw [parseTpl_lits tpl.data h]
  have h1 := matchSegs_lits_append tpl.data [] false p.data
  simp only [List.append_nil, matchSegs, Bool.false_or, List.isEmpty_iff] at h1
  rw [Bool.eq_iff_iff, h1, decide_eq_true_iff, String.ext_iff]
  constructor
  · rintro ⟨q, hq, rfl⟩
    simpa using hq
  · intro hp
    exact ⟨[], by simpa using hp, rfl⟩

end mux

theorem matchPath_product (p : String) :
    mux.matchPath "/product/{id}" false p = true ↔ isProductPath p := by
  have hparse : mux.parseTpl false "/product/{id}".data =
      some ("/product/".data.map mux.Seg.lit ++ [mux.Seg.var]) := by decide
  unfold mux.matchPath isProductPath
  rw [hparse]
  rw [mux.matchSegs_lits_append]
  have hv : ∀ q, mux.matchSegs [mux.Seg.var] false q = true ↔ q ≠ [] ∧ '/' ∉ q := by
    intro q
    have h0 : mux.matchSegs [mux.Seg.var] false q =
        mux.matchVar (mux.matchSegs [] false) q := rfl
    rw [h0, mux.matchVar_iff]
    constructor
    · rintro ⟨a, b, rfl, ha, hsl, hk⟩
      have hb : b = [] := by simpa [mux.matchSegs] using hk
      subst hb
      simpa using ⟨ha, hsl⟩
    · rintro ⟨hq, hsl⟩
      exact ⟨q, [], by simp, hq, hsl, rfl⟩
  constructor
  · rintro ⟨q, hq, hm⟩
    obtain ⟨hne, hsl⟩ := (hv q).1 hm
    refine ⟨String.mk q, ?_, hsl, ?_⟩
    · intro h
      apply hne
      simpa [String.ext_iff] using h
    · simpa [String.ext_iff] using hq
  · rintro ⟨id, hne, hsl, rfl⟩
    refine ⟨id.data, by simp, (hv id.data).2 ⟨?_, hsl⟩⟩
    intro h
    apply hne
    simpa [String.ext_iff] using h

theorem matchPath_static (p : String) :
    mux.matchPath "/static/" true p = true ↔ isStaticPath p := by
  have hparse : mux.parseTpl false "/static/".data =
      some ("/static/".data.map mux.Seg.lit ++ []) := by decide
  unfold mux.matchPath isStaticPath
  rw [hparse]
  simp only [mux.matchSegs_lits_append, mux.matchSegs, Bool.true_or, and_true]
  constructor
  · rintro ⟨q, hq⟩
    exact ⟨String.mk q, by simpa [String.ext_iff] using hq⟩
  · rintro ⟨rest, rfl⟩
    exact ⟨rest.data, by simp⟩

theorem mainRouter_routes :
    mainRouter.routes =
      [ { matchers := [.path "/" false, .methods ["GET", "HEAD"]],
          handler := some (gated .homeHandler) },
        { matchers := [.path "/product/{id}" false, .methods ["GET", "HEAD"]],
          handler := some (gated .productHandler) },
        { matchers := [.path "/cart" false, .methods ["GET", "HEAD"]],
          handler := some (gated .viewCartHandler) },
        { matchers := [.path "/cart" false, .methods ["POST"]],
          handler := some (gated .addToCartHandler) },
        { matchers := [.path "/cart/empty" false, .methods ["POST"]],
          handler := some (gated .emptyCartHandler) },
        { matchers := [.path "/setCurrency" false, .methods ["POST"]],
          handler := some (gated .setCurrencyHandler) },
        { matchers := [.path "/logout" false, .methods ["GET"]],
          handler := some (.svc .logoutHandler) },
        { matchers := [.path "/cart/checkout" false, .methods ["POST"]],
          handler := some (gated .placeOrderHandler) },
        { matchers := [.path "/static/" true], handler := some staticHandler } ] := by
  decide

theorem productPath_excl (p : String) (h : isProductPath p) :
    p ≠ "/" ∧ p ≠ "/cart" ∧ p ≠ "/cart/empty" ∧ p ≠ "/setCurrency" ∧ p ≠ "/logout" ∧
      p ≠ "/cart/checkout" ∧ ¬ isStaticPath p := by
  obtain ⟨id, _, _, rfl⟩ := h
  simp [String.ext_iff, isStaticPath]

theorem staticPath_excl (p : String) (h : isStaticPath p) :
    p ≠ "/" ∧ p ≠ "/cart" ∧ p ≠ "/cart/empty" ∧ p ≠ "/setCurrency" ∧ p ≠ "/logout" ∧
      p ≠ "/cart/checkout" ∧ ¬ isProductPath p := by
  obtain ⟨rest, rfl⟩ := h
  simp [String.ext_iff, isProductPath]

theorem matchPath_lits (p : String) :
    mux.matchPath "/" false p = decide (p = "/") ∧
    mux.matchPath "/cart" false p = decide (p = "/cart") ∧
    mux.matchPath "/cart/empty" false p = decide (p = "/cart/empty") ∧
    mux.matchPath "/setCurrency" false p = decide (p = "/setCurrency") ∧
    mux.matchPath "/logout" false p = decide (p = "/logout") ∧
    mux.matchPath "/cart/checkout" false p = decide (p = "/cart/checkout") :=
  ⟨mux.matchPath_exact _ (by decide) p, mux.matchPath_exact _ (by decide) p,
   mux.matchPath_exact _ (by decide) p, mux.matchPath_exact _ (by decide) p,
   mux.matchPath_exact _ (by decide) p, mux.matchPath_exact _ (by decide) p⟩

theorem matchPath_at_lits :
    mux.matchPath "/product/{id}" false "/" = false ∧
    mux.matchPath "/product/{id}" false "/cart" = false ∧
    mux.matchPath "/product/{id}" false "/cart/empty" = false ∧
    mux.matchPath "/product/{id}" false "/setCurrency" = false ∧
    mux.matchPath "/product/{id}" false "/logout" = false ∧
    mux.matchPath "/product/{id}" false "/cart/checkout" = false ∧
    mux.matchPath "/static/" true "/" = false ∧
    mux.matchPath "/static/" true "/cart" = false ∧
    mux.matchPath "/static/" true "/cart/empty" = false ∧
    mux.matchPath "/static/" true "/setCurrency" = false ∧
    mux.matchPath "/static/" true "/logout" = false ∧
    mux.matchPath "/static/" true "/cart/checkout" = false := by
  decide

/-- The answer of the router of `main`, by the shape of the path. -/
theorem mainRouter_serve (m p : String) :
    (p = "/" → mainRouter.dispatch ⟨m, p⟩ =
      if m = "GET" ∨ m = "HEAD" then .handler (gated .homeHandler) else .methodNotAllowed) ∧
    (isProductPath p → mainRouter.dispatch ⟨m, p⟩ =
      if m = "GET" ∨ m = "HEAD" then .handler (gated .productHandler)
      else .methodNotAllowed) ∧
    (p = "/cart" → mainRouter.dispatch ⟨m, p⟩ =
      if m = "GET" ∨ m = "HEAD" then .handler (gated .viewCartHandler)
      else if m = "POST" then .handler (gated .addToCartHandler) else .methodNotAllowed) ∧
    (p = "/cart/empty" → mainRouter.dispatch ⟨m, p⟩ =
      if m = "POST" then .handler (gated .emptyCartHandler) else .methodNotAllowed) ∧
    (p = "/setCurrency" → mainRouter.dispatch ⟨m, p⟩ =
      if m = "POST" then .handler (gated .setCurrencyHandler) else .methodNotAllowed) ∧
    (p = "/logout" → mainRouter.dispatch ⟨m, p⟩ =
      if m = "GET" then .handler (.svc .logoutHandler) else .methodNotAllowed) ∧
    (p = "/cart/checkout" → mainRouter.dispatch ⟨m, p⟩ =
      if m = "POST" then .handler (gated .placeOrderHandler) else .methodNotAllowed) ∧
    (isStaticPath p → mainRouter.dispatch ⟨m, p⟩ = .handler staticHandler) ∧
    (p ≠ "/" → ¬ isProductPath p → p ≠ "/cart" → p ≠ "/cart/empty" → p ≠ "/setCurrency" →
      p ≠ "/logout" → p ≠ "/cart/checkout" → ¬ isStaticPath p →
      mainRouter.dispatch ⟨m, p⟩ = .notFound) := by
  obtain ⟨e1, e2, e3, e4, e5, e6⟩ := matchPath_lits p
  obtain ⟨a1, a2, a3, a4, a5, a6, b1, b2, b3, b4, b5, b6⟩ := matchPath_at_lits
  rw [mux.dispatch_eq, mainRouter_routes]
  simp only [List.find?, List.any, mux.Route.Matches, mux.Route.pathMatches, List.all,
    mux.Matcher.Match, mux.Matcher.isMethodMatcher, e1, e2, e3, e4, e5, e6, Bool.and_true,
    Bool.true_or, Bool.false_or, Bool.or_false]
  refine ⟨?_, ?_, ?_, ?_, ?_, ?_, ?_, ?_, ?_⟩
  · rintro rfl
    by_cases hG : m = "GET" <;> by_cases hH : m = "HEAD" <;> simp [hG, hH, a1, b1]
  · intro hp
    obtain ⟨x1, x2, x3, x4, x5, x6, x7⟩ := productPath_excl p hp
    have hs : mux.matchPath "/static/" true p = false := by
      rw [← Bool.not_eq_true, matchPath_static]
      exact x7
    have hq := (matchPath_product p).2 hp
    by_cases hG : m = "GET" <;> by_cases hH : m = "HEAD" <;>
      simp [hG, hH, hq, hs, x1, x2, x3, x4, x5, x6]
  · rintro rfl
    by_cases hG : m = "GET" <;> by_cases hH : m = "HEAD" <;> by_cases hP : m = "POST" <;>
      simp [hG, hH, hP, a2, b2]
  · rintro rfl
    by_cases hP : m = "POST" <;> simp [hP, a3, b3]
  · rintro rfl
    by_cases hP : m = "POST" <;> simp [hP, a4, b4]
  · rintro rfl
    by_cases hG : m = "GET" <;> simp [hG, a5, b5]
  · rintro rfl
    by_cases hP : m = "POST" <;> simp [hP, a6, b6]
  · intro hp
    obtain ⟨x1, x2, x3, x4, x5, x6, x7⟩ := staticPath_excl p hp
    have hs : mux.matchPath "/product/{id}" false p = false := by
      rw [← Bool.not_eq_true, matchPath_product]
      exact x7
    have hq := (matchPath_static p).2 hp
    simp [hq, hs, x1, x2, x3, x4, x5, x6]
  · intro x1 x2 x3 x4 x5 x6 x7 x8
    have hs : mux.matchPath "/product/{id}" false p = false := by
      rw [← Bool.not_eq_true, matchPath_product]
      exact x2
    have hq : mux.matchPath "/static/" true p = false := by
      rw [← Bool.not_eq_true, matchPath_static]
      exact x8
    simp [hq, hs, x1, x3, x4, x5, x6, x7]

/-- Every path falls in one of the nine shapes the table distinguishes, or
in none of them. -/
theorem path_cases (p : String) :
    p = "/" ∨ isProductPath p ∨ p = "/cart" ∨ p = "/cart/empty" ∨ p = "/setCurrency" ∨
    p = "/logout" ∨ p = "/cart/checkout" ∨ isStaticPath p ∨
    (p ≠ "/" ∧ ¬ isProductPath p ∧ p ≠ "/cart" ∧ p ≠ "/cart/empty" ∧ p ≠ "/setCurrency" ∧
      p ≠ "/logout" ∧ p ≠ "/cart/checkout" ∧ ¬ isStaticPath p) := by
  by_cases h1 : p = "/"
  · exact Or.inl h1
  by_cases h2 : isProductPath p
  · exact Or.inr (Or.inl h2)
  by_cases h3 : p = "/cart"
  · exact Or.inr (Or.inr (Or.inl h3))
  by_cases h4 : p = "/cart/empty"
  · exact Or.inr (Or.inr (Or.inr (Or.inl h4)))
  by_cases h5 : p = "/setCurrency"
  · exact Or.inr (Or.inr (Or.inr (Or.inr (Or.inl h5))))
  by_cases h6 : p = "/logout"
  · exact Or.inr (Or.inr (Or.inr (Or.inr (Or.inr (Or.inl h6)))))
  by_cases h7 : p = "/cart/checkout"
  · exact Or.inr (Or.inr (Or.inr (Or.inr (Or.inr (Or.inr (Or.inl h7))))))
  by_cases h8 : isStaticPath p
  · exact Or.inr (Or.inr (Or.inr (Or.inr (Or.inr (Or.inr (Or.inr (Or.inl h8)))))))
  · exact Or.inr (Or.inr (Or.inr (Or.inr (Or.inr (Or.inr (Or.inr (Or.inr
      ⟨h1, h2, h3, h4, h5, h6, h7, h8⟩)))))))

/-- No literal path of the table is a product path or a static path. -/
theorem lits_not_product_static :
    ¬ isProductPath "/" ∧ ¬ isProductPath "/cart" ∧ ¬ isProductPath "/cart/empty" ∧
    ¬ isProductPath "/setCurrency" ∧ ¬ isProductPath "/logout" ∧
    ¬ isProductPath "/cart/checkout" ∧
    ¬ isStaticPath "/" ∧ ¬ isStaticPath "/cart" ∧ ¬ isStaticPath "/cart/empty" ∧
    ¬ isStaticPath "/setCurrency" ∧ ¬ isStaticPath "/logout" ∧
    ¬ isStaticPath "/cart/checkout" := by
  refine ⟨?_, ?_, ?_, ?_, ?_, ?_, ?_, ?_, ?_, ?_, ?_, ?_⟩
  · exact fun h => (productPath_excl _ h).1 rfl
  · exact fun h => (productPath_excl _ h).2.1 rfl
  · exact fun h => (productPath_excl _ h).2.2.1 rfl
  · exact fun h => (productPath_excl _ h).2.2.2.1 rfl
  · exact fun h => (productPath_excl _ h).2.2.2.2.1 rfl
  · exact fun h => (productPath_excl _ h).2.2.2.2.2.1 rfl
  · exact fun h => (staticPath_excl _ h).1 rfl
  · exact fun h => (staticPath_excl _ h).2.1 rfl
  · exact fun h => (staticPath_excl _ h).2.2.1 rfl
  · exact fun h => (staticPath_excl _ h).2.2.2.1 rfl
  · exact fun h => (staticPath_excl _ h).2.2.2.2.1 rfl
  · exact fun h => (staticPath_excl _ h).2.2.2.2.2.1 rfl

/-- The answer of the router of `main` is a handler exactly on the
documented routes and, for every method, on the static paths. -/
theorem mainRouter_handler_iff (m p : String) (h : HandlerExpr) :
    mainRouter.dispatch ⟨m, p⟩ = .handler h ↔
      documentedRoute m p h ∨ (isStaticPath p ∧ h = staticHandler) := by
  obtain ⟨s1, s2, s3, s4, s5, s6, s7, s8, s9⟩ := mainRouter_serve m p
  obtain ⟨n1, n2, n3, n4, n5, n6, n7, n8, n9, n10, n11, n12⟩ := lits_not_product_static
  unfold documentedRoute
  rcases path_cases p with hp | hp | hp | hp | hp | hp | hp | hp | hp
  · rw [s1 hp]
    subst hp
    by_cases hG : m = "GET" <;> by_cases hH : m = "HEAD" <;>
      simp [hG, hH, n1, n7, eq_comm]
  · rw [s2 hp]
    obtain ⟨x1, x2, x3, x4, x5, x6, x7⟩ := productPath_excl p hp
    by_cases hG : m = "GET" <;> by_cases hH : m = "HEAD" <;>
      simp [hG, hH, hp, x1, x2, x3, x4, x5, x6, x7, eq_comm]
  · rw [s3 hp]
    subst hp
    by_cases hG : m = "GET" <;> by_cases hH : m = "HEAD" <;> by_cases hP : m = "POST" <;>
      simp [hG, hH, hP, n2, n8, eq_comm]
  · rw [s4 hp]
    subst hp
    by_cases hP : m = "POST" <;> simp [hP, n3, n9, eq_comm]
  · rw [s5 hp]
    subst hp
    by_cases hP : m = "POST" <;> simp [hP, n4, n10, eq_comm]
  · rw [s6 hp]
    subst hp
    by_cases hG : m = "GET" <;> simp [hG, n5, n11, eq_comm]
  · rw [s7 hp]
    subst hp
    by_cases hP : m = "POST" <;> simp [hP, n6, n12, eq_comm]
  · rw [s8 hp]
    obtain ⟨x1, x2, x3, x4, x5, x6, x7⟩ := staticPath_excl p hp
    simp [hp, x1, x2, x3, x4, x5, x6, x7, eq_comm]
  · obtain ⟨x1, x2, x3, x4, x5, x6, x7, x8⟩ := hp
    rw [s9 x1 x2 x3 x4 x5 x6 x7 x8]
    simp [x1, x2, x3, x4, x5, x6, x7, x8]

/-- The routes of `main` that match a request are those whose handler the
router may answer with, and there is at most one of them. -/
theorem mainRouter_matching (m p : String) :
    (mainRouter.routes.filter fun r => r.Matches ⟨m, p⟩).length ≤ 1 ∧
    ∀ h, (∃ r ∈ mainRouter.routes, r.Matches ⟨m, p⟩ = true ∧ r.handler = some h) ↔
      documentedRoute m p h ∨ (isStaticPath p ∧ h = staticHandler) := by
  obtain ⟨e1, e2, e3, e4, e5, e6⟩ := matchPath_lits p
  obtain ⟨a1, a2, a3, a4, a5, a6, b1, b2, b3, b4, b5, b6⟩ := matchPath_at_lits
  obtain ⟨n1, n2, n3, n4, n5, n6, n7, n8, n9, n10, n11, n12⟩ := lits_not_product_static
  rw [mainRouter_routes]
  unfold documentedRoute
  simp only [List.mem_cons, List.mem_singleton, exists_eq_or_imp, exists_eq_left,
    List.not_mem_nil, false_and, exists_false, or_false,
    List.filter_cons, List.filter_nil, mux.Route.Matches, List.all, mux.Matcher.Match,
    e1, e2, e3, e4, e5, e6, Bool.and_true]
  rcases path_cases p with hp | hp | hp | hp | hp | hp | hp | hp | hp
  · subst hp
    by_cases hG : m = "GET" <;> by_cases hH : m = "HEAD" <;>
      simp [hG, hH, n1, n7, a1, b1, eq_comm]
  · obtain ⟨x1, x2, x3, x4, x5, x6, x7⟩ := productPath_excl p hp
    have hs : mux.matchPath "/static/" true p = false := by
      rw [← Bool.not_eq_true, matchPath_static]
      exact x7
    have hq := (matchPath_product p).2 hp
    by_cases hG : m = "GET" <;> by_cases hH : m = "HEAD" <;>
      simp [hG, hH, hp, hq, hs, x1, x2, x3, x4, x5, x6, x7, eq_comm]
  · subst hp
    by_cases hG : m = "GET" <;> by_cases hH : m = "HEAD" <;> by_cases hP : m = "POST" <;>
      simp [hG, hH, hP, n2, n8, a2, b2, eq_comm]
  · subst hp
    by_cases hP : m = "POST" <;> simp [hP, n3, n9, a3, b3, eq_comm]
  · subst hp
    by_cases hP : m = "POST" <;> simp [hP, n4, n10, a4, b4, eq_comm]
  · subst hp
    by_cases hG : m = "GET" <;> simp [hG, n5, n11, a5, b5, eq_comm]
  · subst hp
    by_cases hP : m = "POST" <;> simp [hP, n6, n12, a6, b6, eq_comm]
  · obtain ⟨x1, x2, x3, x4, x5, x6, x7⟩ := staticPath_excl p hp
    have hs : mux.matchPath "/product/{id}" false p = false := by
      rw [← Bool.not_eq_true, matchPath_product]
      exact x7
    have hq := (matchPath_static p).2 hp
    simp [hp, hq, hs, x1, x2, x3, x4, x5, x6, x7, eq_comm]
  · obtain ⟨x1, x2, x3, x4, x5, x6, x7, x8⟩ := hp
    have hs : mux.matchPath "/product/{id}" false p = false := by
      rw [← Bool.not_eq_true, matchPath_product]
      exact x2
    have hq : mux.matchPath "/static/" true p = false := by
      rw [← Bool.not_eq_true, matchPath_static]
      exact x8
    simp [hq, hs, x1, x2, x3, x4, x5, x6, x7, x8]

/-- For a table in which at most one route matches, the first match is the
same in every order of registration. -/
theorem find_perm_of_unique {α : Type} (q : α → Bool) (l1 l2 : List α) (hp : l1.Perm l2)
    (hu : (l2.filter q).length ≤ 1) : l1.find? q = l2.find? q := by
  rw [← List.filter_head?, ← List.filter_head?]
  have hf := hp.filter q
  cases h2 : l2.filter q with
  | nil =>
    rw [h2] at hf
    rw [List.perm_nil.1 hf]
  | cons x xs =>
    cases xs with
    | nil =>
      rw [h2] at hf
      rw [List.perm_singleton.1 hf]
    | cons y ys =>
      rw [h2] at hu
      simp at hu

theorem any_perm {α : Type} (q : α → Bool) (l1 l2 : List α) (hp : l1.Perm l2) :
    l1.any q = l2.any q := by
  rw [Bool.eq_iff_iff, List.any_eq_true, List.any_eq_true]
  constructor
  · rintro ⟨x, hx, h⟩
    exact ⟨x, hp.mem_iff.1 hx, h⟩
  · rintro ⟨x, hx, h⟩
    exact ⟨x, hp.mem_iff.2 hx, h⟩

/-! ## The claims -/

/-- C1: `main` gets past its configuration phase (it does not panic in
`mustMapEnv`; equivalently, it attempts a dial) exactly when all six required
variables have a non-empty value. When one of them is unset or empty, `main`
panics with the `mustMapEnv` message that names the first missing variable in
the listed order, and its trace holds no dial and no listen call. -/
theorem C1_required_addresses_gate_startup (env : Env) (d : Dialer) :
    ((main env d).panickedInMustMapEnv = false ↔ ∀ k ∈ requiredVars, hasValue env k = true) ∧
    ((main env d).state.trace.any Event.isDial = true ↔
      ∀ k ∈ requiredVars, hasValue env k = true) ∧
    (∀ k ∈ requiredVars, (env k = none ∨ env k = some "") →
      ∃ k0, firstMissing env = some k0 ∧
        (main env d).panicValue =
          some (.str ("environment variable \x22" ++ k0 ++ "\x22 not set")) ∧
        (main env d).state.trace.any Event.isDial = false ∧
        (main env d).state.trace.any Event.isListen = false) := by
  cases hm : firstMissing env with
  | some k0 =>
    obtain ⟨s, hs, hnd, hnl⟩ := main_missing env d k0 hm
    obtain ⟨hk0, hv0⟩ := firstMissing_some_mem env k0 hm
    have hnot : ¬ ∀ k ∈ requiredVars, hasValue env k = true := by
      intro hall
      rw [hall k0 hk0] at hv0
      exact Bool.noConfusion hv0
    refine ⟨?_, ?_, ?_⟩
    · simp only [hs, Result.panickedInMustMapEnv, Result.panicValue]
      exact ⟨fun h => Bool.noConfusion h, fun h => absurd h hnot⟩
    · simp only [hs, Result.state, hnd]
      exact ⟨fun h => Bool.noConfusion h, fun h => absurd h hnot⟩
    · intro k _ _
      exact ⟨k0, rfl, by simp [hs, Result.panicValue], by simpa [hs, Result.state] using hnd,
        by simpa [hs, Result.state] using hnl⟩
  | none =>
    have hall := (firstMissing_none_iff env).1 hm
    have hfacts : (main env d).panickedInMustMapEnv = false ∧
        (main env d).state.trace.any Event.isDial = true := by
      rcases main_configured env d hall with
        ⟨e, _, h⟩ | ⟨c0, e, _, _, h⟩ | ⟨c0, c1, e, _, _, _, h⟩ | ⟨c0, c1, c2, e, _, _, _, _, h⟩ |
        ⟨c0, c1, c2, c3, e, _, _, _, _, _, h⟩ | ⟨c0, c1, c2, c3, c4, e, _, _, _, _, _, _, h⟩ |
        ⟨c0, c1, c2, c3, c4, c5, _, _, _, _, _, _, h⟩ <;>
      simp [h, Result.panickedInMustMapEnv, Result.panicValue, Result.state, stateAfter,
        servingState, dialOrder, Event.isDial]
    refine ⟨⟨fun _ => hall, fun _ => hfacts.1⟩, ⟨fun _ => hall, fun _ => hfacts.2⟩, ?_⟩
    intro k hk hv
    have := hall k hk
    rw [(hasValue_false_cases env k).2 hv] at this
    exact Bool.noConfusion this

/-- C2: with all six addresses configured, whatever the dialer answers: the
dials `main` makes are an initial segment of the six expected dials (each
address field is dialed at most once, in the fixed order), a dial that fails
is the last dial made, and if any of the six dials fails then `main` panics
with the wrapped error of that dial and never calls `ListenAndServe`; the
listen call is reached only after six successful dials. -/
theorem C2_dial_failure_aborts_startup (env : Env) (d : Dialer)
    (hcfg : ∀ k ∈ requiredVars, hasValue env k = true) :
    (∃ n, n ≤ 6 ∧
      (main env d).state.trace.filter Event.isDial = (expectedDials env d).take n) ∧
    (((main env d).state.trace.filter Event.isDial).map Event.dialConn).Nodup ∧
    (∀ e ∈ (main env d).state.trace.filter Event.isDial, e.dialFailed = true →
      ((main env d).state.trace.filter Event.isDial).getLast? = some e) ∧
    ((expectedDials env d).any Event.dialFailed = true →
      (main env d).isOk = false ∧
      (main env d).state.trace.any Event.isListen = false ∧
      ∃ conn addr err,
        ((main env d).state.trace.filter Event.isDial).getLast? =
          some (.dial conn addr threeSeconds (.error err)) ∧
        (main env d).panicValue =
          some (.wrapped ("grpc: failed to connect " ++ addr) err)) ∧
    ((main env d).state.trace.any Event.isListen = true →
      (expectedDials env d).any Event.dialFailed = false ∧
      (main env d).state.trace.filter Event.isDial = expectedDials env d) := by
  rcases main_configured env d hcfg with
    ⟨e, r0, h⟩ | ⟨c0, e, r0, r1, h⟩ | ⟨c0, c1, e, r0, r1, r2, h⟩ |
    ⟨c0, c1, c2, e, r0, r1, r2, r3, h⟩ | ⟨c0, c1, c2, c3, e, r0, r1, r2, r3, r4, h⟩ |
    ⟨c0, c1, c2, c3, c4, e, r0, r1, r2, r3, r4, r5, h⟩ |
    ⟨c0, c1, c2, c3, c4, c5, r0, r1, r2, r3, r4, r5, h⟩
  · refine ⟨⟨1, by omega, ?_⟩, ?_⟩
    · simp [h, r0, Result.state, Result.isOk, Result.panicValue, stateAfter,
      servingState, expectedDials, dialOrder, Kind.all, List.enum, List.enumFrom, Kind.connPtr,
      Kind.envVar, Event.isDial, Event.dialConn, Event.dialFailed, Event.isListen, List.filter,
      DialResult.conn]
    · simp [h, r0, Result.state, Result.isOk, Result.panicValue, stateAfter,
      servingState, expectedDials, dialOrder, Kind.all, List.enum, List.enumFrom, Kind.connPtr,
      Kind.envVar, Event.isDial, Event.dialConn, Event.dialFailed, Event.isListen, List.filter,
      DialResult.conn]
      exact ⟨_, _, ⟨rfl, rfl⟩, rfl⟩
  · refine ⟨⟨2, by omega, ?_⟩, ?_⟩
    · simp [h, r0, r1, Result.state, Result.isOk, Result.panicValue, stateAfter,
      servingState, expectedDials, dialOrder, Kind.all, List.enum, List.enumFrom, Kind.connPtr,
      Kind.envVar, Event.isDial, Event.dialConn, Event.dialFailed, Event.isListen, List.filter,
      DialResult.conn]
    · simp [h, r0, r1, Result.state, Result.isOk, Result.panicValue, stateAfter,
      servingState, expectedDials, dialOrder, Kind.all, List.enum, List.enumFrom, Kind.connPtr,
      Kind.envVar, Event.isDial, Event.dialConn, Event.dialFailed, Event.isListen, List.filter,
      DialResult.conn]
      exact ⟨_, _, ⟨rfl, rfl⟩, rfl⟩
  · refine ⟨⟨3, by omega, ?_⟩, ?_⟩
    · simp [h, r0, r1, r2, Result.state, Result.isOk, Result.panicValue, stateAfter,
      servingState, expectedDials, dialOrder, Kind.all, List.enum, List.enumFrom, Kind.connPtr,
      Kind.envVar, Event.isDial, Event.dialConn, Event.dialFailed, Event.isListen, List.filter,
      DialResult.conn]
    · simp [h, r0, r1, r2, Result.state, Result.isOk, Result.panicValue, stateAfter,
      servingState, expectedDials, dialOrder, Kind.all, List.enum, List.enumFrom, Kind.connPtr,
      Kind.envVar, Event.isDial, Event.dialConn, Event.dialFailed, Event.isListen, List.filter,
      DialResult.conn]
      exact ⟨_, _, ⟨rfl, rfl⟩, rfl⟩
  · refine ⟨⟨4, by omega, ?_⟩, ?_⟩
    · simp [h, r0, r1, r2, r3, Result.state, Result.isOk, Result.panicValue, stateAfter,
      servingState, expectedDials, dialOrder, Kind.all, List.enum, List.enumFrom, Kind.connPtr,
      Kind.envVar, Event.isDial, Event.dialConn, Event.dialFailed, Event.isListen, List.filter,
      DialResult.conn]
    · simp [h, r0, r1, r2, r3, Result.state, Result.isOk, Result.panicValue, stateAfter,
      servingState, expectedDials, dialOrder, Kind.all, List.enum, List.enumFrom, Kind.connPtr,
      Kind.envVar, Event.isDial, Event.dialConn, Event.dialFailed, Event.isListen, List.filter,
      DialResult.conn]
      exact ⟨_, _, ⟨rfl, rfl⟩, rfl⟩
  · refine ⟨⟨5, by omega, ?_⟩, ?_⟩
    · simp [h, r0, r1, r2, r3, r4, Result.state, Result.isOk, Result.panicValue, stateAfter,
      servingState, expectedDials, dialOrder, Kind.all, List.enum, List.enumFrom, Kind.connPtr,
      Kind.envVar, Event.isDial, Event.dialConn, Event.dialFailed, Event.isListen, List.filter,
      DialResult.conn]
    · simp [h, r0, r1, r2, r3, r4, Result.state, Result.isOk, Result.panicValue, stateAfter,
      servingState, expectedDials, dialOrder, Kind.all, List.enum, List.enumFrom, Kind.connPtr,
      Kind.envVar, Event.isDial, Event.dialConn, Event.dialFailed, Event.isListen, List.filter,
      DialResult.conn]
      exact ⟨_, _, ⟨rfl, rfl⟩, rfl⟩
  · refine ⟨⟨6, by omega, ?_⟩, ?_⟩
    · simp [h, r0, r1, r2, r3, r4, r5, Result.state, Result.isOk, Result.panicValue, stateAfter,
      servingState, expectedDials, dialOrder, Kind.all, List.enum, List.enumFrom, Kind.connPtr,
      Kind.envVar, Event.isDial, Event.dialConn, Event.dialFailed, Event.isListen, List.filter,
      DialResult.conn]
    · simp [h, r0, r1, r2, r3, r4, r5, Result.state, Result.isOk, Result.panicValue, stateAfter,
      servingState, expectedDials, dialOrder, Kind.all, List.enum, List.enumFrom, Kind.connPtr,
      Kind.envVar, Event.isDial, Event.dialConn, Event.dialFailed, Event.isListen, List.filter,
      DialResult.conn]
      exact ⟨_, _, ⟨rfl, rfl⟩, rfl⟩
  · refine ⟨⟨6, by omega, ?_⟩, ?_⟩ <;>
    simp [h, r0, r1, r2, r3, r4, r5, Result.state, Result.isOk, Result.panicValue, stateAfter,
      servingState, expectedDials, dialOrder, Kind.all, List.enum, List.enumFrom, Kind.connPtr,
      Kind.envVar, Event.isDial, Event.dialConn, Event.dialFailed, Event.isListen, List.filter,
      DialResult.conn]

/-- C8: when `main` reaches the listen call, the endpoint it passes is the
value of `LISTEN_ADDR`, a colon, and the port, where the port is the value of
`PORT` if that is set and non-empty and 8080 otherwise; with `LISTEN_ADDR`
unset the endpoint is a colon and the port. Whether the start-up succeeds
depends only on the six addresses and their dials, and is the same when
`PORT` and `LISTEN_ADDR` are removed from the environment. -/
theorem C8_listen_endpoint (env : Env) (d : Dialer) :
    (∀ sv s, main env d = .ok sv s →
      sv.endpoint = Getenv env "LISTEN_ADDR" ++ ":" ++ listenPort env ∧
      s.trace.filter Event.isListen = [.listenAndServe sv.endpoint] ∧
      (env "LISTEN_ADDR" = none → sv.endpoint = ":" ++ listenPort env)) ∧
    (∀ v, env "PORT" = some v → v ≠ "" → listenPort env = v) ∧
    ((env "PORT" = none ∨ env "PORT" = some "") → listenPort env = "8080") ∧
    ((main env d).isOk = true ↔
      (∀ k ∈ requiredVars, hasValue env k = true) ∧
      (expectedDials env d).any Event.dialFailed = false) ∧
    (main (fun k => if k = "PORT" ∨ k = "LISTEN_ADDR" then none else env k) d).isOk =
      (main env d).isOk := by
  refine ⟨?_, ?_, ?_, main_isOk_iff env d, ?_⟩
  · intro sv s h
    have hok : (main env d).isOk = true := by rw [h]; rfl
    have hcfg := configured_of_ok env d hok
    rcases main_configured env d hcfg with
      ⟨e, r0, hm⟩ | ⟨c0, e, r0, r1, hm⟩ | ⟨c0, c1, e, r0, r1, r2, hm⟩ |
      ⟨c0, c1, c2, e, r0, r1, r2, r3, hm⟩ | ⟨c0, c1, c2, c3, e, r0, r1, r2, r3, r4, hm⟩ |
      ⟨c0, c1, c2, c3, c4, e, r0, r1, r2, r3, r4, r5, hm⟩ |
      ⟨c0, c1, c2, c3, c4, c5, r0, r1, r2, r3, r4, r5, hm⟩
    all_goals rw [hm] at h
    all_goals try exact Result.noConfusion h
    injection h with h1 h2
    subst h1 h2
    refine ⟨rfl, ?_, ?_⟩
    · simp [servingState, stateAfter, dialOrder, Kind.all, Event.isListen, List.filter]
    · intro hl
      simp [listenEndpoint, hl]
  · intro v hv hne
    simp [listenPort, hasValue, hv, hne]
  · rintro (hp | hp) <;> simp [listenPort, hasValue, hp]
  · rw [Bool.eq_iff_iff, main_isOk_iff, main_isOk_iff]
    have hv : ∀ k ∈ requiredVars,
        hasValue (fun k => if k = "PORT" ∨ k = "LISTEN_ADDR" then none else env k) k =
          hasValue env k := by
      simp [requiredVars, hasValue]
    have he : expectedDials (fun k => if k = "PORT" ∨ k = "LISTEN_ADDR" then none else env k) d =
        expectedDials env d := by
      simp [expectedDials, dialOrder, List.enum, List.enumFrom, Kind.envVar, Getenv]
    rw [he]
    constructor
    · rintro ⟨h1, h2⟩
      exact ⟨fun k hk => by rw [← hv k hk]; exact h1 k hk, h2⟩
    · rintro ⟨h1, h2⟩
      exact ⟨fun k hk => by rw [hv k hk]; exact h1 k hk, h2⟩

/-- C10: when `main` reaches the listen call, each of the six kinds has its
address field equal to the value of its own environment variable and its
connection field equal to the handle returned by the one dial made for that
field, which went to that address with a three-second timeout; six dials
were made in all, and every address and connection field was assigned
exactly once. -/
theorem C10_registry_wired_once (env : Env) (d : Dialer) (sv : Serving) (s : ProcState)
    (h : main env d = .ok sv s) :
    (∀ k : Kind, s.svc.loadStr k.addrPtr = Getenv env k.envVar) ∧
    (∀ k : Kind, ∃ c, s.svc.loadConn k.connPtr = some c ∧
      s.trace.filter (Event.dialsFor k.connPtr) =
        [.dial k.connPtr (s.svc.loadStr k.addrPtr) (3 * timeSecond) (.ok c)]) ∧
    s.trace.filter Event.isDial = expectedDials env d ∧
    (s.trace.filter Event.isDial).length = 6 ∧
    (∀ k : Kind, (s.trace.filter (Event.assignsStr k.addrPtr)).length = 1 ∧
      (s.trace.filter (Event.assignsConn k.connPtr)).length = 1) := by
  have hok : (main env d).isOk = true := by rw [h]; rfl
  have hcfg := configured_of_ok env d hok
  have ht : 3 * timeSecond = threeSeconds := by decide
  rcases main_configured env d hcfg with
    ⟨e, r0, hm⟩ | ⟨c0, e, r0, r1, hm⟩ | ⟨c0, c1, e, r0, r1, r2, hm⟩ |
    ⟨c0, c1, c2, e, r0, r1, r2, r3, hm⟩ | ⟨c0, c1, c2, c3, e, r0, r1, r2, r3, r4, hm⟩ |
    ⟨c0, c1, c2, c3, c4, e, r0, r1, r2, r3, r4, r5, hm⟩ |
    ⟨c0, c1, c2, c3, c4, c5, r0, r1, r2, r3, r4, r5, hm⟩
  all_goals rw [hm] at h
  all_goals try exact Result.noConfusion h
  injection h with h1 h2
  subst h1 h2
  rw [ht]
  refine ⟨?_, ?_, ?_, ?_, ?_⟩
  · intro k
    cases k <;>
    simp [servingState, stateAfter, dialOrder, Kind.connPtr, Kind.envVar, Kind.addrPtr,
      frontendServer.loadStr, frontendServer.storeConn, frontendServer.new]
  · intro k
    cases k <;>
    simp [servingState, stateAfter, dialOrder, Kind.all, Kind.connPtr, Kind.envVar,
      Kind.addrPtr, frontendServer.loadStr, frontendServer.loadConn, frontendServer.storeConn,
      frontendServer.new, DialResult.conn, Event.dialsFor]
  · simp [servingState, stateAfter, expectedDials, dialOrder, Kind.all, List.enum,
      List.enumFrom, Kind.connPtr, Kind.envVar, Event.isDial, List.filter, r0, r1, r2, r3, r4, r5]
  · simp [servingState, stateAfter, dialOrder, Kind.all, Event.isDial, List.filter]
  · intro k
    cases k <;>
    simp [servingState, stateAfter, dialOrder, Kind.all, Kind.connPtr, Kind.addrPtr,
      Event.assignsStr, Event.assignsConn]

/-- C3: the currency whitelist has exactly the four entries USD, EUR, CAD
and JPY: a lookup is true for these codes and for no other string. The
default currency USD is a member; GBP, XXX, the empty string and the
lower-case spelling of a member are not. -/
theorem C3_currency_whitelist_closed :
    (∀ s : String, mapIndex whitelistedCurrencies s = true ↔
      s = "USD" ∨ s = "EUR" ∨ s = "CAD" ∨ s = "JPY") ∧
    whitelistedCurrencies.length = 4 ∧
    (whitelistedCurrencies.map Prod.fst).Nodup ∧
    defaultCurrency = "USD" ∧
    mapIndex whitelistedCurrencies defaultCurrency = true ∧
    mapIndex whitelistedCurrencies "GBP" = false ∧
    mapIndex whitelistedCurrencies "XXX" = false ∧
    mapIndex whitelistedCurrencies "" = false ∧
    mapIndex whitelistedCurrencies "usd" = false := by
  refine ⟨?_, by decide, by decide, rfl, by decide, by decide, by decide, by decide, by decide⟩
  intro s
  unfold mapIndex whitelistedCurrencies
  by_cases h1 : s = "USD"
  · subst h1
    decide
  by_cases h2 : s = "EUR"
  · subst h2
    decide
  by_cases h3 : s = "CAD"
  · subst h3
    decide
  by_cases h4 : s = "JPY"
  · subst h4
    decide
  have b1 : (s == "USD") = false := by simpa using h1
  have b2 : (s == "EUR") = false := by simpa using h2
  have b3 : (s == "CAD") = false := by simpa using h3
  have b4 : (s == "JPY") = false := by simpa using h4
  simp only [List.lookup, b1, b2, b3, b4]
  simp [h1, h2, h3, h4]

/-- C4: for a path outside the static prefix, a route of the table of
`main` matches the request exactly when method and path are one of the
documented pairs, and the handler of the matching route, which is the
handler the router answers with, is the documented one. -/
theorem C4_route_table_is_documented_surface (m p : String) (hns : ¬ isStaticPath p)
    (h : HandlerExpr) :
    ((∃ r ∈ mainRouter.routes, r.Matches ⟨m, p⟩ = true ∧ r.handler = some h) ↔
      documentedRoute m p h) ∧
    (mainRouter.dispatch ⟨m, p⟩ = .handler h ↔ documentedRoute m p h) ∧
    ((∃ r ∈ mainRouter.routes, r.Matches ⟨m, p⟩ = true) ↔ ∃ h1, documentedRoute m p h1) := by
  have hall : ∀ r ∈ mainRouter.routes, ∃ h1, r.handler = some h1 := by
    rw [mainRouter_routes]
    simp
  have hm := (mainRouter_matching m p).2
  refine ⟨?_, ?_, ?_⟩
  · rw [hm h]
    exact ⟨fun hd => hd.resolve_right fun hs => hns hs.1, Or.inl⟩
  · rw [mainRouter_handler_iff]
    exact ⟨fun hd => hd.resolve_right fun hs => hns hs.1, Or.inl⟩
  · constructor
    · rintro ⟨r, hr, hrm⟩
      obtain ⟨h1, hh1⟩ := hall r hr
      exact ⟨h1, ((hm h1).1 ⟨r, hr, hrm, hh1⟩).resolve_right fun hs => hns hs.1⟩
    · rintro ⟨h1, hd⟩
      obtain ⟨r, hr, hrm, _⟩ := (hm h1).2 (Or.inl hd)
      exact ⟨r, hr, hrm⟩

/-- C5: the table of `main` has nine entries, at most one of them matches
a given method and path, and the answer of the router is the same for every
order in which the nine entries could have been registered. -/
theorem C5_at_most_one_route_matches (m p : String) :
    mainRouter.routes.length = 9 ∧
    (mainRouter.routes.filter fun r => r.Matches ⟨m, p⟩).length ≤ 1 ∧
    ∀ rs : List (mux.Route HandlerExpr), rs.Perm mainRouter.routes →
      (mux.Router.mk rs).dispatch ⟨m, p⟩ = mainRouter.dispatch ⟨m, p⟩ := by
  refine ⟨by decide, (mainRouter_matching m p).1, ?_⟩
  intro rs hperm
  rw [mux.dispatch_eq, mux.dispatch_eq]
  rw [find_perm_of_unique _ rs mainRouter.routes hperm (mainRouter_matching m p).1,
    any_perm _ rs mainRouter.routes hperm]

/-- C6: in the table of `main`, every entry other than the logout entry
and the static prefix entry has a handler of the form `ensureSessionID` of a
server method; the logout entry and the static entry carry their handlers
bare. Hence the handler the router answers with is not session-gated
exactly for GET /logout and for the static paths. -/
theorem C6_session_gating_coverage :
    (∀ r ∈ mainRouter.routes,
      r.matchers ≠ [.path "/logout" false, .methods ["GET"]] →
      r.matchers ≠ [.path "/static/" true] →
      ∃ f, r.handler = some (.ensureSessionID (.svc f))) ∧
    (∀ r ∈ mainRouter.routes, r.matchers = [.path "/logout" false, .methods ["GET"]] →
      r.handler = some (.svc .logoutHandler)) ∧
    (∀ r ∈ mainRouter.routes, r.matchers = [.path "/static/" true] →
      r.handler = some (.StripPrefix "/static/" (.FileServer "./static/"))) ∧
    (mainRouter.routes.filter fun r =>
      r.handler.any HandlerExpr.isSessionGated).length = 7 ∧
    (∀ m p h, mainRouter.dispatch ⟨m, p⟩ = .handler h →
      (h.isSessionGated = false ↔ (m = "GET" ∧ p = "/logout") ∨ isStaticPath p)) := by
  refine ⟨?_, ?_, ?_, by decide, ?_⟩
  · rw [mainRouter_routes]
    simp [gated]
  · rw [mainRouter_routes]
    simp
  · rw [mainRouter_routes]
    simp [staticHandler]
  · intro m p h hs
    obtain ⟨n1, n2, n3, n4, n5, n6, n7, n8, n9, n10, n11, n12⟩ := lits_not_product_static
    rcases (mainRouter_handler_iff m p h).1 hs with hd | ⟨hst, rfl⟩
    · rcases hd with ⟨_, rfl, rfl⟩ | ⟨_, hp, rfl⟩ | ⟨_, rfl, rfl⟩ | ⟨_, rfl, rfl⟩ |
        ⟨_, rfl, rfl⟩ | ⟨_, rfl, rfl⟩ | ⟨rfl, rfl, rfl⟩ | ⟨_, rfl, rfl⟩
      · simp [gated, HandlerExpr.isSessionGated, n7]
      · obtain ⟨x1, x2, x3, x4, x5, x6, x7⟩ := productPath_excl p hp
        simp [gated, HandlerExpr.isSessionGated, x5, x7]
      · simp [gated, HandlerExpr.isSessionGated, n8]
      · simp [gated, HandlerExpr.isSessionGated, n8]
      · simp [gated, HandlerExpr.isSessionGated, n9]
      · simp [gated, HandlerExpr.isSessionGated, n10]
      · simp [HandlerExpr.isSessionGated]
      · simp [gated, HandlerExpr.isSessionGated, n12]
    · simp [staticHandler, HandlerExpr.isSessionGated, hst]

/-- C7: a request whose path matches the path pattern of no route of the
table of `main` is answered with not-found; a request whose path matches
the pattern of some route, while no route with a matching pattern accepts
its method, is answered with method-not-allowed (no handler), as for DELETE
/cart, GET /setCurrency, GET /cart/empty, POST /logout and HEAD /logout. -/
theorem C7_not_found_and_method_not_allowed (m p : String) :
    ((∀ r ∈ mainRouter.routes, r.pathMatches ⟨m, p⟩ = false) →
      mainRouter.dispatch ⟨m, p⟩ = .notFound) ∧
    ((∃ r ∈ mainRouter.routes, r.pathMatches ⟨m, p⟩ = true) →
      (∀ r ∈ mainRouter.routes, r.pathMatches ⟨m, p⟩ = true →
        r.methodAccepts ⟨m, p⟩ = false) →
      mainRouter.dispatch ⟨m, p⟩ = .methodNotAllowed) ∧
    mainRouter.dispatch ⟨"DELETE", "/cart"⟩ = .methodNotAllowed ∧
    mainRouter.dispatch ⟨"GET", "/setCurrency"⟩ = .methodNotAllowed ∧
    mainRouter.dispatch ⟨"GET", "/cart/empty"⟩ = .methodNotAllowed ∧
    mainRouter.dispatch ⟨"POST", "/logout"⟩ = .methodNotAllowed ∧
    mainRouter.dispatch ⟨"HEAD", "/logout"⟩ = .methodNotAllowed := by
  refine ⟨?_, ?_, by decide, by decide, by decide, by decide, by decide⟩
  · intro hno
    rw [mux.dispatch_eq]
    have hf : mainRouter.routes.find? (fun rt => rt.Matches ⟨m, p⟩) = none := by
      rw [List.find?_eq_none]
      intro r hr
      rw [mux.Matches_eq, hno r hr]
      simp
    have ha : (mainRouter.routes.any fun rt => rt.pathMatches ⟨m, p⟩) = false := by
      rw [List.any_eq_false]
      intro r hr
      rw [hno r hr]
      simp
    rw [hf, ha]
    rfl
  · rintro ⟨r0, hr0, hp0⟩ hrej
    rw [mux.dispatch_eq]
    have hf : mainRouter.routes.find? (fun rt => rt.Matches ⟨m, p⟩) = none := by
      rw [List.find?_eq_none]
      intro r hr
      rw [mux.Matches_eq]
      cases hpm : r.pathMatches ⟨m, p⟩ with
      | false => simp
      | true => simp [hrej r hr hpm]
    have ha : (mainRouter.routes.any fun rt => rt.pathMatches ⟨m, p⟩) = true := by
      rw [List.any_eq_true]
      exact ⟨r0, hr0, hp0⟩
    rw [hf, ha]
    rfl

/-- C9, counterexample to the claim as stated: POST /static/app.css is a
request under the static prefix with a method other than GET; its path is in
canonical form, the table lookup selects the static file handler, and the
router of `main` answers it with that handler. -/
theorem C9_counterexample_post_static :
    isStaticPath "/static/app.css" ∧ "POST" ≠ "GET" ∧
    mainRouter.dispatch ⟨"POST", "/static/app.css"⟩ =
      .handler (.StripPrefix "/static/" (.FileServer "./static/")) ∧
    mux.cleanPath "/static/app.css" = "/static/app.css" ∧
    mainRouter.ServeHTTP ⟨"POST", "/static/app.css"⟩ =
      .served (.handler (.StripPrefix "/static/" (.FileServer "./static/"))) :=
  ⟨⟨"app.css", by decide⟩, by decide, by decide, by decide, by decide⟩

/-- C9, amended: the static prefix entry of the table of `main` carries no
method matcher, so for every method it matches every path under the static
prefix, and no route whose path pattern matches such a path rejects the
method. When the path is in canonical form (the clean-path step leaves it
unchanged) the router answers the request with the static file handler,
whatever the method; when it is not, the router answers with a redirect to
the cleaned path and the table is not consulted. -/
theorem C9_static_accepts_every_method (m p : String) (hp : isStaticPath p) :
    (∃ r ∈ mainRouter.routes, r.matchers = [.path "/static/" true] ∧
      r.handler = some (.StripPrefix "/static/" (.FileServer "./static/")) ∧
      r.Matches ⟨m, p⟩ = true) ∧
    (∀ r ∈ mainRouter.routes, r.pathMatches ⟨m, p⟩ = true →
      r.methodAccepts ⟨m, p⟩ = true) ∧
    (mux.cleanPath p = p →
      mainRouter.ServeHTTP ⟨m, p⟩ =
        .served (.handler (.StripPrefix "/static/" (.FileServer "./static/")))) ∧
    (mux.cleanPath p ≠ p →
      mainRouter.ServeHTTP ⟨m, p⟩ = .movedPermanently (mux.cleanPath p)) := by
  have hq := (matchPath_static p).2 hp
  refine ⟨?_, ?_, ?_, ?_⟩
  · refine ⟨{ matchers := [.path "/static/" true], handler := some staticHandler }, ?_, rfl,
      rfl, ?_⟩
    · rw [mainRouter_routes]
      simp
    · simp [mux.Route.Matches, mux.Matcher.Match, hq]
  · obtain ⟨e1, e2, e3, e4, e5, e6⟩ := matchPath_lits p
    obtain ⟨x1, x2, x3, x4, x5, x6, x7⟩ := staticPath_excl p hp
    have hs : mux.matchPath "/product/{id}" false p = false := by
      rw [← Bool.not_eq_true, matchPath_product]
      exact x7
    rw [mainRouter_routes]
    simp [mux.Route.pathMatches, mux.Route.methodAccepts, mux.Matcher.Match,
      mux.Matcher.isMethodMatcher, e1, e2, e3, e4, e5, e6, x1, x2, x3, x4, x5, x6, hs]
  · intro hc
    have hd := (mainRouter_serve m p).2.2.2.2.2.2.2.1 hp
    unfold mux.Router.ServeHTTP
    simp only [hc, ne_eq, not_true_eq_false, if_false, hd]
    rfl
  · intro hc
    unfold mux.Router.ServeHTTP
    simp only [ne_eq, hc, not_false_eq_true, if_true]

/-! ## Witnesses at sample inputs -/

/-- C1 at the sample environment without the cart address. -/
theorem C1_witness :
    ∃ k0, firstMissing envWithoutCart = some k0 ∧
      (main envWithoutCart okDialer).panicValue =
        some (.str ("environment variable \x22" ++ k0 ++ "\x22 not set")) ∧
      (main envWithoutCart okDialer).state.trace.any Event.isDial = false ∧
      (main envWithoutCart okDialer).state.trace.any Event.isListen = false :=
  (C1_required_addresses_gate_startup envWithoutCart okDialer).2.2
    "CART_SERVICE_ADDR" (by decide) (Or.inl rfl)

/-- C2 at the sample environment with a dialer whose third dial fails. -/
theorem C2_witness :
    (∀ k ∈ requiredVars, hasValue sampleEnv k = true) ∧
    (expectedDials sampleEnv failingDialer).any Event.dialFailed = true ∧
    (main sampleEnv failingDialer).isOk = false ∧
    (main sampleEnv failingDialer).state.trace.any Event.isListen = false :=
  ⟨by decide, by decide,
   ((C2_dial_failure_aborts_startup sampleEnv failingDialer (by decide)).2.2.2.1
      (by decide)).1,
   ((C2_dial_failure_aborts_startup sampleEnv failingDialer (by decide)).2.2.2.1
      (by decide)).2.1⟩

/-- C4 at GET on a product path. -/
theorem C4_witness :
    ¬ isStaticPath "/product/OLJCESPC7Z" ∧
    (mainRouter.dispatch ⟨"GET", "/product/OLJCESPC7Z"⟩ = .handler (gated .productHandler) ↔
      documentedRoute "GET" "/product/OLJCESPC7Z" (gated .productHandler)) :=
  ⟨fun h => (staticPath_excl _ h).2.2.2.2.2.2 ⟨"OLJCESPC7Z", by decide, by decide, by decide⟩,
   (C4_route_table_is_documented_surface "GET" "/product/OLJCESPC7Z"
      (fun h => (staticPath_excl _ h).2.2.2.2.2.2 ⟨"OLJCESPC7Z", by decide, by decide, by decide⟩)
      (gated .productHandler)).2.1⟩

/-- C5 at POST /cart with the table in reverse order. -/
theorem C5_witness :
    (mux.Router.mk mainRouter.routes.reverse).dispatch ⟨"POST", "/cart"⟩ =
      mainRouter.dispatch ⟨"POST", "/cart"⟩ :=
  (C5_at_most_one_route_matches "POST" "/cart").2.2 mainRouter.routes.reverse
    (List.reverse_perm _)

/-- C6 at GET /logout. -/
theorem C6_witness :
    (HandlerExpr.svc SvcMethod.logoutHandler).isSessionGated = false ↔
      ("GET" = "GET" ∧ "/logout" = "/logout") ∨ isStaticPath "/logout" :=
  C6_session_gating_coverage.2.2.2.2 "GET" "/logout" (.svc .logoutHandler) (by decide)

/-- C7 at GET /checkout (no pattern matches) and PUT /cart (no method accepts). -/
theorem C7_witness :
    (∀ r ∈ mainRouter.routes, r.pathMatches ⟨"GET", "/checkout"⟩ = false) ∧
    mainRouter.dispatch ⟨"GET", "/checkout"⟩ = .notFound ∧
    (∃ r ∈ mainRouter.routes, r.pathMatches ⟨"PUT", "/cart"⟩ = true) ∧
    (∀ r ∈ mainRouter.routes, r.pathMatches ⟨"PUT", "/cart"⟩ = true →
      r.methodAccepts ⟨"PUT", "/cart"⟩ = false) ∧
    mainRouter.dispatch ⟨"PUT", "/cart"⟩ = .methodNotAllowed :=
  ⟨by decide,
   (C7_not_found_and_method_not_allowed "GET" "/checkout").1 (by decide),
   by decide, by decide,
   (C7_not_found_and_method_not_allowed "PUT" "/cart").2.1 (by decide) (by decide)⟩

/-- C8 at the sample environment, where neither optional variable is set. -/
theorem C8_witness :
    main sampleEnv okDialer =
      .ok ⟨":8080", mainRouter⟩ (main sampleEnv okDialer).state ∧
    (":8080" = Getenv sampleEnv "LISTEN_ADDR" ++ ":" ++ listenPort sampleEnv ∧
      (main sampleEnv okDialer).state.trace.filter Event.isListen = [.listenAndServe ":8080"] ∧
      (sampleEnv "LISTEN_ADDR" = none → ":8080" = ":" ++ listenPort sampleEnv)) :=
  ⟨by rfl,
   (C8_listen_endpoint sampleEnv okDialer).1 ⟨":8080", mainRouter⟩
     (main sampleEnv okDialer).state (by rfl)⟩

/-- C9, amended, at DELETE on a canonical static path and at POST on a
static path that is not canonical. -/
theorem C9_witness :
    isStaticPath "/static/img/logo.png" ∧
    mux.cleanPath "/static/img/logo.png" = "/static/img/logo.png" ∧
    mainRouter.ServeHTTP ⟨"DELETE", "/static/img/logo.png"⟩ =
      .served (.handler (.StripPrefix "/static/" (.FileServer "./static/"))) ∧
    isStaticPath "/static/../cart" ∧
    mainRouter.ServeHTTP ⟨"POST", "/static/../cart"⟩ =
      .movedPermanently (mux.cleanPath "/static/../cart") ∧
    mux.cleanPath "/static/../cart" = "/cart" :=
  ⟨⟨"img/logo.png", by decide⟩, by decide,
   (C9_static_accepts_every_method "DELETE" "/static/img/logo.png"
      ⟨"img/logo.png", by decide⟩).2.2.1 (by decide),
   ⟨"../cart", by decide⟩,
   (C9_static_accepts_every_method "POST" "/static/../cart"
      ⟨"../cart", by decide⟩).2.2.2 (by decide),
   by decide⟩

/-- C10 at the sample environment with a dialer that always succeeds. -/
theorem C10_witness :
    main sampleEnv okDialer =
      .ok ⟨":8080", mainRouter⟩ (main sampleEnv okDialer).state ∧
    (main sampleEnv okDialer).state.trace.filter Event.isDial =
      expectedDials sampleEnv okDialer ∧
    ((main sampleEnv okDialer).state.trace.filter Event.isDial).length = 6 :=
  ⟨by rfl,
   (C10_registry_wired_once sampleEnv okDialer ⟨":8080", mainRouter⟩
      (main sampleEnv okDialer).state (by rfl)).2.2.1,
   (C10_registry_wired_once sampleEnv okDialer ⟨":8080", mainRouter⟩
      (main sampleEnv okDialer).state (by rfl)).2.2.2.1⟩

end Frontend
